import Mathlib

/-!
# Verification of the pyrender scene-graph / renderer core

A shallow embedding, over exact rationals, of the parts of pyrender
(scene.py, node.py, renderer.py, material.py, texture.py, primitive.py,
mesh.py, light.py, constants.py) that the checked claims are about.

Conventions:
* matrices are 4×4 over ℚ, written as explicit structures so that all
  operations compute;
* Python `None` is `Option.none`; Python exceptions are `Except.error`
  with the source's message;
* numpy arrays appear as lists or as index functions, and the numpy
  reshape/flip calls are embedded as explicit list operations;
* Python sets are modelled as lists; only membership, emptiness and
  set-difference filters are used on them, never ordering, except where
  the source itself picks `next(iter(...))`, which is modelled as the
  head of the list.
-/

set_option maxRecDepth 4000

namespace Pyrender

/-! ## Vectors and 4×4 matrices -/

/-- A 3-vector of rationals. -/
structure Vec3 where
  x : ℚ
  y : ℚ
  z : ℚ
deriving DecidableEq, Repr

/-- A 4-vector of rationals (one row of a 4×4 matrix). -/
structure Vec4 where
  a : ℚ
  b : ℚ
  c : ℚ
  d : ℚ
deriving DecidableEq, Repr

/-- A 4×4 matrix of rationals, row by row. -/
structure Mat4 where
  r0 : Vec4
  r1 : Vec4
  r2 : Vec4
  r3 : Vec4
deriving DecidableEq, Repr

namespace Mat4

/-- `np.eye(4)`. -/
def one : Mat4 :=
  ⟨⟨1,0,0,0⟩, ⟨0,1,0,0⟩, ⟨0,0,1,0⟩, ⟨0,0,0,1⟩⟩

/-- Dot product of a row with a column given by its four entries. -/
def rdot (r : Vec4) (c0 c1 c2 c3 : ℚ) : ℚ :=
  r.a * c0 + r.b * c1 + r.c * c2 + r.d * c3

/-- Matrix product, `np.dot` on 4×4 arrays. -/
def mul (m n : Mat4) : Mat4 :=
  ⟨⟨rdot m.r0 n.r0.a n.r1.a n.r2.a n.r3.a, rdot m.r0 n.r0.b n.r1.b n.r2.b n.r3.b,
    rdot m.r0 n.r0.c n.r1.c n.r2.c n.r3.c, rdot m.r0 n.r0.d n.r1.d n.r2.d n.r3.d⟩,
   ⟨rdot m.r1 n.r0.a n.r1.a n.r2.a n.r3.a, rdot m.r1 n.r0.b n.r1.b n.r2.b n.r3.b,
    rdot m.r1 n.r0.c n.r1.c n.r2.c n.r3.c, rdot m.r1 n.r0.d n.r1.d n.r2.d n.r3.d⟩,
   ⟨rdot m.r2 n.r0.a n.r1.a n.r2.a n.r3.a, rdot m.r2 n.r0.b n.r1.b n.r2.b n.r3.b,
    rdot m.r2 n.r0.c n.r1.c n.r2.c n.r3.c, rdot m.r2 n.r0.d n.r1.d n.r2.d n.r3.d⟩,
   ⟨rdot m.r3 n.r0.a n.r1.a n.r2.a n.r3.a, rdot m.r3 n.r0.b n.r1.b n.r2.b n.r3.b,
    rdot m.r3 n.r0.c n.r1.c n.r2.c n.r3.c, rdot m.r3 n.r0.d n.r1.d n.r2.d n.r3.d⟩⟩

instance : Mul Mat4 := ⟨mul⟩

instance : One Mat4 := ⟨one⟩

/-- `pose[:3,:3].dot(v) + pose[:3,3]`: the rotation/scale block applied to a
point plus the translation column, exactly the expression used by
`Scene.bounds` to send local corners to world space. -/
def transformPoint (m : Mat4) (v : Vec3) : Vec3 :=
  ⟨m.r0.a * v.x + m.r0.b * v.y + m.r0.c * v.z + m.r0.d,
   m.r1.a * v.x + m.r1.b * v.y + m.r1.c * v.z + m.r1.d,
   m.r2.a * v.x + m.r2.b * v.y + m.r2.c * v.z + m.r2.d⟩

/-- The bottom row of a 4×4 matrix is `[0,0,0,1]` — the validation
performed by the `Node.matrix` setter. -/
def bottomRowOk (m : Mat4) : Bool :=
  m.r3 = (⟨0,0,0,1⟩ : Vec4)

end Mat4

/-! ## Axis-aligned boxes -/

/-- An axis-aligned bounding box, `(2,3)` float array `[lo, hi]`. -/
structure Box where
  lo : Vec3
  hi : Vec3
deriving DecidableEq, Repr

namespace Box

/-- `np.zeros((2,3))`, the bounds of a scene with no mesh nodes. -/
def zero : Box := ⟨⟨0,0,0⟩, ⟨0,0,0⟩⟩

/-- `trimesh.bounds.corners`: the eight corners of a box. -/
def corners (b : Box) : List Vec3 :=
  [⟨b.lo.x, b.lo.y, b.lo.z⟩, ⟨b.lo.x, b.lo.y, b.hi.z⟩,
   ⟨b.lo.x, b.hi.y, b.lo.z⟩, ⟨b.lo.x, b.hi.y, b.hi.z⟩,
   ⟨b.hi.x, b.lo.y, b.lo.z⟩, ⟨b.hi.x, b.lo.y, b.hi.z⟩,
   ⟨b.hi.x, b.hi.y, b.lo.z⟩, ⟨b.hi.x, b.hi.y, b.hi.z⟩]

end Box

/-- Componentwise minimum of two 3-vectors. -/
def vmin (u v : Vec3) : Vec3 := ⟨min u.x v.x, min u.y v.y, min u.z v.z⟩

/-- Componentwise maximum of two 3-vectors. -/
def vmax (u v : Vec3) : Vec3 := ⟨max u.x v.x, max u.y v.y, max u.z v.z⟩

/-- `np.min(corners, axis=0)` over a nonempty corner list, seeded with the
head. -/
def foldMin (v : Vec3) (vs : List Vec3) : Vec3 := vs.foldl vmin v

/-- `np.max(corners, axis=0)` over a nonempty corner list, seeded with the
head. -/
def foldMax (v : Vec3) (vs : List Vec3) : Vec3 := vs.foldl vmax v

/-! ## RenderFlags (constants.py)

`constants.py` builds the flag values with `_flag_value`; the class body
defines exactly the names listed in `RenderFlags.getattr` below.  The
renderer also reads `RenderFlags.SEG` and `RenderFlags.FLAT`, which this
class does *not* define, so those two lookups are modelled as `none`
(a Python `AttributeError` at the access site). -/

/-- `constants._flag_value`. -/
def _flag_value (i : Nat) : Nat := if i = 0 then 0 else 2 ^ (i - 1)

namespace RenderFlags

def NONE : Nat := _flag_value 0
def NO_LIGHTS : Nat := _flag_value 1
def NO_MATERIALS : Nat := _flag_value 2
def DEPTH_ONLY : Nat := NO_LIGHTS ||| NO_MATERIALS ||| _flag_value 3
def OFFSCREEN : Nat := _flag_value 4
def FLIP_WIREFRAME : Nat := _flag_value 5
def ALL_WIREFRAME : Nat := _flag_value 6
def ALL_SOLID : Nat := _flag_value 7
def SHADOWS_DIRECTIONAL : Nat := _flag_value 8
def SHADOWS_POINT : Nat := _flag_value 9
def SHADOWS_SPOT : Nat := _flag_value 10
def SHADOWS_ALL : Nat := SHADOWS_DIRECTIONAL ||| SHADOWS_POINT ||| SHADOWS_SPOT
def VERTEX_NORMALS : Nat := _flag_value 11
def FACE_NORMALS : Nat := _flag_value 12
def SKIP_CULL_FACES : Nat := _flag_value 13
def RGBA : Nat := _flag_value 14
def ALL_CAM_COORDS : Nat := NO_LIGHTS ||| NO_MATERIALS ||| _flag_value 15

/-- Attribute lookup on the `RenderFlags` class: the names its class body
defines, and `none` for any other name (an `AttributeError` in Python).
In particular `getattr "SEG" = none` and `getattr "FLAT" = none`. -/
def getattr : String → Option Nat := fun s =>
  if s = "NONE" then some NONE
  else if s = "NO_LIGHTS" then some NO_LIGHTS
  else if s = "NO_MATERIALS" then some NO_MATERIALS
  else if s = "DEPTH_ONLY" then some DEPTH_ONLY
  else if s = "OFFSCREEN" then some OFFSCREEN
  else if s = "FLIP_WIREFRAME" then some FLIP_WIREFRAME
  else if s = "ALL_WIREFRAME" then some ALL_WIREFRAME
  else if s = "ALL_SOLID" then some ALL_SOLID
  else if s = "SHADOWS_DIRECTIONAL" then some SHADOWS_DIRECTIONAL
  else if s = "SHADOWS_POINT" then some SHADOWS_POINT
  else if s = "SHADOWS_SPOT" then some SHADOWS_SPOT
  else if s = "SHADOWS_ALL" then some SHADOWS_ALL
  else if s = "VERTEX_NORMALS" then some VERTEX_NORMALS
  else if s = "FACE_NORMALS" then some FACE_NORMALS
  else if s = "SKIP_CULL_FACES" then some SKIP_CULL_FACES
  else if s = "RGBA" then some RGBA
  else if s = "ALL_CAM_COORDS" then some ALL_CAM_COORDS
  else none

end RenderFlags

/-! ## Textures (texture.py)

Only the state that `Texture.is_transparent` reads is modelled: the
channel layout string, the alpha channel of the source image (flattened;
meaningful when the channels are `RGBA`), and the `_is_transparent` memo
slot.  `Texture.__init__` runs the `source` setter and then stores
`False` into `_is_transparent`; the `source` setter itself also stores
`False`.  Neither ever stores Python `None` there. -/

structure Texture where
  source_channels : String
  /-- `source[:,:,3]` flattened, `none` when `source is None`. -/
  sourceAlpha : Option (List ℚ)
  /-- The `_is_transparent` slot: `none` models Python `None`. -/
  isTransparentMemo : Option Bool
deriving DecidableEq, Repr

namespace Texture

/-- `Texture.__init__(source_channels=.., source=..)`: stores the source
through the setter and leaves `_is_transparent = False`. -/
def init (source_channels : String) (sourceAlpha : Option (List ℚ)) : Texture :=
  { source_channels := source_channels
    sourceAlpha := sourceAlpha
    isTransparentMemo := some false }

/-- `Texture.is_transparent(cutoff)`: recomputes only when the memo slot
holds `None`; otherwise returns the memoised boolean. -/
def is_transparent (t : Texture) (cutoff : ℚ) : Bool :=
  match t.isTransparentMemo with
  | some b => b
  | none =>
      if t.source_channels = "RGBA" then
        match t.sourceAlpha with
        | some alphas => alphas.any (fun a => a < cutoff)
        | none => false
      else false

end Texture

/-! ## Materials (material.py) -/

/-- The fields of `MetallicRoughnessMaterial` that its
`_compute_transparency` reads.  `baseColorFactorAlpha` is
`baseColorFactor[3]`. -/
structure MetallicRoughnessMaterial where
  alphaMode : String
  alphaCutoff : ℚ
  baseColorFactorAlpha : ℚ
  baseColorTexture : Option Texture
deriving DecidableEq, Repr

/-- `MetallicRoughnessMaterial._compute_transparency`. -/
def MetallicRoughnessMaterial._compute_transparency
    (m : MetallicRoughnessMaterial) : Bool :=
  if m.alphaMode = "OPAQUE" then false
  else
    let cutoff := if m.alphaMode = "BLEND" then 1 else m.alphaCutoff
    if m.baseColorFactorAlpha < cutoff then true
    else
      match m.baseColorTexture with
      | some t => t.is_transparent cutoff
      | none => false

/-- The fields of `SpecularGlossinessMaterial` that its
`_compute_transparency` reads.  `diffuseFactorAlpha` is
`diffuseFactor[3]`. -/
structure SpecularGlossinessMaterial where
  alphaMode : String
  alphaCutoff : ℚ
  diffuseFactorAlpha : ℚ
  diffuseTexture : Option Texture
deriving DecidableEq, Repr

/-- `SpecularGlossinessMaterial._compute_transparency`. -/
def SpecularGlossinessMaterial._compute_transparency
    (m : SpecularGlossinessMaterial) : Bool :=
  if m.alphaMode = "OPAQUE" then false
  else
    let cutoff := if m.alphaMode = "BLEND" then 1 else m.alphaCutoff
    if m.diffuseFactorAlpha < cutoff then true
    else
      match m.diffuseTexture with
      | some t => t.is_transparent cutoff
      | none => false

/-- A concrete `Material`: pyrender's abstract base class cannot be
instantiated, so every material is one of the two PBR models. -/
inductive Material where
  | metallicRoughness (m : MetallicRoughnessMaterial)
  | specularGlossiness (m : SpecularGlossinessMaterial)
deriving DecidableEq, Repr

/-- `Material.is_transparent` (dispatches to the subclass
`_compute_transparency`). -/
def Material.is_transparent : Material → Bool
  | .metallicRoughness m => m._compute_transparency
  | .specularGlossiness m => m._compute_transparency

/-! ## Primitives and meshes (primitive.py, mesh.py) -/

/-- The fields of `Primitive` read by `_compute_transparency`:
the material, `color_0[:,3]` (vertex-color alphas), and the
`_is_transparent` memo slot (initialised to `None` in
`Primitive.__init__` and reset to `None` by the `color_0` setter). -/
structure Primitive where
  material : Material
  color0Alpha : Option (List ℚ)
  isTransparentMemo : Option Bool
deriving DecidableEq, Repr

/-- `Primitive.__init__`: the memo slot starts out as `None`. -/
def Primitive.init (material : Material) (color0Alpha : Option (List ℚ)) :
    Primitive :=
  { material := material, color0Alpha := color0Alpha,
    isTransparentMemo := none }

/-- `Primitive._compute_transparency` (the body of the `is_transparent`
property). -/
def Primitive._compute_transparency (p : Primitive) : Bool :=
  if p.material.is_transparent then true
  else
    match p.isTransparentMemo with
    | some b => b
    | none =>
        match p.color0Alpha with
        | some alphas => alphas.any (fun a => a ≠ 1)
        | none => false

/-- The fields of `Mesh` used by its `is_transparent` property and by the
scene-bounds computation: primitives, visibility, and the mesh-level
local bounding box (`Mesh.bounds`, the union of the primitive boxes,
taken here as data). -/
structure Mesh where
  primitives : List Primitive
  is_visible : Bool
  bounds : Box
deriving DecidableEq, Repr

/-- `Mesh.is_transparent`: true iff some primitive is transparent. -/
def Mesh.is_transparent (m : Mesh) : Bool :=
  m.primitives.any Primitive._compute_transparency

/-! ## Lights (light.py) -/

/-- The concrete `Light` subclasses. -/
inductive LightType where
  | directional
  | point
  | spot
deriving DecidableEq, Repr

/-- The light state the claims read: the subclass and the
`_shadow_texture` slot (`None` until a shadow texture is generated). -/
structure Light where
  ty : LightType
  shadow_texture : Option Nat
deriving DecidableEq, Repr

/-- `constants.SHADOW_TEX_SZ`. -/
def SHADOW_TEX_SZ : Nat := 1024

/-- `Light._generate_shadow_texture(size)`: directional and spot lights
store a fresh depth `Texture` (identified here by `freshTexId`) of side
`size` (default `SHADOW_TEX_SZ`); `PointLight._generate_shadow_texture`
raises `NotImplementedError`. -/
def Light._generate_shadow_texture (l : Light) (size : Option Nat)
    (freshTexId : Nat) : Except String Light :=
  match l.ty with
  | .point => .error "NotImplementedError: Shadows not implemented for point lights"
  | _ =>
      let _sz := size.getD SHADOW_TEX_SZ
      .ok { l with shadow_texture := some freshTexId }

/-- The camera returned by `Light._get_shadow_camera`.  The spot-light
camera's field of view involves `π` (a clip of `2·outerConeAngle + π/16`),
so only its constructor is recorded. -/
inductive ShadowCamera where
  | orthographic (znear zfar xmag ymag : ℚ)
  | perspectiveSpot
deriving DecidableEq, Repr

/-- `Light._get_shadow_camera(scene_scale)`: directional lights build an
`OrthographicCamera(znear=0.01·s, zfar=10·s, xmag=s, ymag=s)`, spot
lights a `PerspectiveCamera`; `PointLight._get_shadow_camera` raises
`NotImplementedError`. -/
def Light._get_shadow_camera (l : Light) (scene_scale : ℚ) :
    Except String ShadowCamera :=
  match l.ty with
  | .directional =>
      .ok (.orthographic (scene_scale / 100) (10 * scene_scale)
            scene_scale scene_scale)
  | .spot => .ok .perspectiveSpot
  | .point => .error "NotImplementedError: Shadows not implemented for point lights"

/-! ## Scene (scene.py)

Nodes are identified by natural numbers.  The per-node attributes
(`Node.children`, `Node.matrix`, `Node.mesh`, `Node.camera`,
`Node.light`) are total maps out of the identifier space, describing
node objects whether or not they are currently in the scene; the
scene's own state is the `nodes` set, the category indices, the main
camera and the bounds cache, exactly the attributes `scene.py`
maintains.  The transform digraph (`node → parent`, all roots pointing
at the synthetic `'world'` vertex) is the `parent` map, `none` standing
for `'world'`.  The per-node path cache is not modelled: `scene.py`
clears it on every topology edit, so `get_pose` always folds over the
freshly computed node→world path.  `Node.matrix` is modelled as stored
directly (its float TRS decomposition round-trip is outside this
development). -/

/-- Pointwise update of a total map, the effect of one Python attribute
assignment. -/
def fupd {α : Type} (f : Nat → α) (k : Nat) (v : α) : Nat → α :=
  fun n => if n = k then v else f n

structure Scene where
  nodes : List Nat
  parent : Nat → Option Nat
  childrenOf : Nat → List Nat
  localMatrix : Nat → Mat4
  meshOf : Nat → Option Nat
  cameraOf : Nat → Option Nat
  lightOf : Nat → Option Nat
  mesh_nodes : List Nat
  camera_nodes : List Nat
  point_light_nodes : List Nat
  spot_light_nodes : List Nat
  directional_light_nodes : List Nat
  main_camera_node : Option Nat
  boundsCache : Option Box
  /-- Mesh object id → the mesh record (primitives, visibility, local
  bounds). -/
  meshData : Nat → Mesh
  /-- Mesh object id → the texture ids referenced by its primitives'
  materials (`p.material.textures` unioned over primitives). -/
  meshPrimTex : Nat → List Nat
  /-- Camera object id → `znear`. -/
  camZnear : Nat → ℚ
  /-- Camera object id → `zfar` (`none` = infinite projection). -/
  camZfar : Nat → Option ℚ
  /-- Light object id → the light record. -/
  lightData : Nat → Light
  /-- Light object id → the id of the `Texture` a
  `_generate_shadow_texture` call on it creates. -/
  genShadowTex : Nat → Nat

namespace Scene

/-- `nx.shortest_path(digraph, node, 'world')` without the final
`'world'` entry: the node and its ancestor chain.  Structured on fuel;
any fuel at least the chain length gives the full chain. -/
def pathToWorld (s : Scene) : Nat → Nat → List Nat
  | 0, _ => []
  | fuel + 1, n =>
      n :: (match s.parent n with
            | none => []
            | some p => pathToWorld s fuel p)

/-- The successful branch of `Scene.get_pose`: `pose = np.eye(4)`, then
`pose = np.dot(n.matrix, pose)` for each entry of the path. -/
def poseOf (s : Scene) (n : Nat) : Mat4 :=
  (s.pathToWorld s.nodes.length n).foldl (fun pose k => s.localMatrix k * pose) 1

/-- `Scene.get_pose(node)`: `ValueError` for a node outside the scene,
otherwise the fold of local matrices along the node→world path. -/
def get_pose (s : Scene) (n : Nat) : Except String Mat4 :=
  if n ∈ s.nodes then .ok (s.poseOf n)
  else .error "ValueError: Node must already be in scene"

/-- `Scene.set_pose(node, pose)`: `ValueError` outside the scene; the
`Node.matrix` setter then validates the bottom row; the scene bounds
cache is dropped only when the posed node itself carries a mesh. -/
def set_pose (s : Scene) (n : Nat) (pose : Mat4) : Except String Scene :=
  if n ∈ s.nodes then
    if pose.bottomRowOk then
      let s := { s with localMatrix := fupd s.localMatrix n pose }
      if (s.meshOf n).isSome then .ok { s with boundsCache := none }
      else .ok s
    else .error "ValueError: Bottom row of matrix must be [0,0,0,1]"
  else .error "ValueError: Node must already be in scene"

/-- The mesh-index step of `Scene.add_node`. -/
def addMeshStep (s : Scene) (n : Nat) : Scene :=
  if (s.meshOf n).isSome then { s with mesh_nodes := n :: s.mesh_nodes }
  else s

/-- The insertion into the light-category lists of `Scene.add_node`
for a node carrying light object `l` (the three `isinstance` tests all
inspect the light object, which the list insertions do not change). -/
def addLightBranch (s : Scene) (n l : Nat) : Scene :=
  let s1 :=
    if (s.lightData l).ty = LightType.point then
      { s with point_light_nodes := n :: s.point_light_nodes }
    else s
  let s2 :=
    if (s.lightData l).ty = LightType.spot then
      { s1 with spot_light_nodes := n :: s1.spot_light_nodes }
    else s1
  if (s.lightData l).ty = LightType.directional then
    { s2 with directional_light_nodes := n :: s2.directional_light_nodes }
  else s2

/-- The light-index step of `Scene.add_node`. -/
def addLightStep (s : Scene) (n : Nat) : Scene :=
  match s.lightOf n with
  | some l => addLightBranch s n l
  | none => s

/-- The camera-index step of `Scene.add_node`: the first camera node
added to a camera-less scene becomes the main camera. -/
def addCamStep (s : Scene) (n : Nat) : Scene :=
  if (s.cameraOf n).isSome then
    { s with camera_nodes := n :: s.camera_nodes,
             main_camera_node :=
               if s.main_camera_node = none then some n
               else s.main_camera_node }
  else s

/-- The parent-edge step of `Scene.add_node`. -/
def addParentStep (s : Scene) (n : Nat) : Option Nat → Except String Scene
  | none => .ok { s with parent := fupd s.parent n none }
  | some p =>
      if p ∈ s.nodes then
        let s :=
          if n ∈ s.childrenOf p then s
          else { s with childrenOf := fupd s.childrenOf p (s.childrenOf p ++ [n]) }
        .ok { s with parent := fupd s.parent n (some p) }
      else .error "ValueError: Parent node must already be in scene"

/-- `Scene.add_node(node, parent_node)`, structured on fuel for the
recursive descent into `node.children`. -/
def add_node : Nat → Scene → Nat → Option Nat → Except String Scene
  | 0, _, _, _ => .error "recursion limit"
  | fuel + 1, s, n, parentArg => do
      if n ∈ s.nodes then throw "ValueError: Node already in scene" else
      let s := addMeshStep { s with nodes := n :: s.nodes } n
      let s := addLightStep s n
      let s := addCamStep s n
      let s ← addParentStep s n parentArg
      let s ← (s.childrenOf n).foldlM (fun acc c => add_node fuel acc c (some n)) s
      pure { s with boundsCache := none }

/-- The mesh-index step of `Scene._remove_node`. -/
def removeMeshStep (s : Scene) (n : Nat) : Scene :=
  if (s.meshOf n).isSome then { s with mesh_nodes := s.mesh_nodes.erase n }
  else s

/-- The erasure from the light-category lists of `Scene._remove_node`
for a node carrying light object `l`. -/
def removeLightBranch (s : Scene) (n l : Nat) : Scene :=
  let s1 :=
    if (s.lightData l).ty = LightType.point then
      { s with point_light_nodes := s.point_light_nodes.erase n }
    else s
  let s2 :=
    if (s.lightData l).ty = LightType.spot then
      { s1 with spot_light_nodes := s1.spot_light_nodes.erase n }
    else s1
  if (s.lightData l).ty = LightType.directional then
    { s2 with directional_light_nodes := s2.directional_light_nodes.erase n }
  else s2

/-- The light-index step of `Scene._remove_node`. -/
def removeLightStep (s : Scene) (n : Nat) : Scene :=
  match s.lightOf n with
  | some l => removeLightBranch s n l
  | none => s

/-- The camera-index step of `Scene._remove_node`: when the removed node
was the main camera, promote `next(iter(camera_nodes))` — the head of
the remaining list — or clear the main camera if none remain. -/
def removeCamStep (s : Scene) (n : Nat) : Scene :=
  if (s.cameraOf n).isSome then
    let cams := s.camera_nodes.erase n
    if s.main_camera_node = some n then
      { s with camera_nodes := cams, main_camera_node := cams.head? }
    else { s with camera_nodes := cams }
  else s

/-- `Scene._remove_node(node)`: drop the node from the node set, recurse
into its children, then update the category indices. -/
def _remove_node : Nat → Scene → Nat → Scene
  | 0, s, _ => s
  | fuel + 1, s, n =>
      let s := { s with nodes := s.nodes.erase n }
      let s := (s.childrenOf n).foldl (fun acc c => _remove_node fuel acc c) s
      let s := removeMeshStep s n
      let s := removeLightStep s n
      removeCamStep s n

/-- `Scene.remove_node(node)`: disconnect from the parent's children
list, remove the subtree, and drop the caches.  The initial
`self._digraph.neighbors(node)` lookup fails for a node that is not in
the scene graph. -/
def remove_node (s : Scene) (n : Nat) : Except String Scene :=
  if n ∈ s.nodes then
    let p := s.parent n
    let s' := _remove_node s.nodes.length s n
    let s' :=
      match p with
      | some pp =>
          { s' with childrenOf := fupd s'.childrenOf pp ((s'.childrenOf pp).erase n) }
      | none => s'
    .ok { s' with boundsCache := none }
  else .error "NetworkXError: node not in the scene graph"

/-- `Scene.clear()`. -/
def clear (s : Scene) : Scene :=
  { s with nodes := [], mesh_nodes := [], camera_nodes := [],
           point_light_nodes := [], spot_light_nodes := [],
           directional_light_nodes := [],
           main_camera_node := none, boundsCache := none }

/-- `Scene.meshes`: the set of mesh objects attached to mesh nodes. -/
def meshes (s : Scene) : List Nat :=
  (s.mesh_nodes.filterMap s.meshOf).dedup

/-- `Scene.lights`: the set of light objects attached to light nodes. -/
def lights (s : Scene) : List Nat :=
  ((s.point_light_nodes ++ s.spot_light_nodes ++
    s.directional_light_nodes).filterMap s.lightOf).dedup

/-- The world-space corners contributed to `Scene.bounds` by one mesh
node: `pose[:3,:3].dot(corners_local.T).T + pose[:3,3]`. -/
def nodeWorldCorners (s : Scene) (n : Nat) : List Vec3 :=
  match s.meshOf n with
  | none => []
  | some m => ((s.meshData m).bounds.corners).map (s.poseOf n).transformPoint

/-- The uncached branch of the `Scene.bounds` property: stack the world
corners of every mesh node; `np.zeros((2,3))` when there are none,
otherwise `[np.min(corners, axis=0), np.max(corners, axis=0)]`. -/
def computeBounds (s : Scene) : Box :=
  match (s.mesh_nodes.map s.nodeWorldCorners).flatten with
  | [] => Box.zero
  | v :: vs => ⟨foldMin v vs, foldMax v vs⟩

/-- The `Scene.bounds` property: return the cached box when present,
else compute and memoise it. -/
def bounds (s : Scene) : Box × Scene :=
  match s.boundsCache with
  | some b => (b, s)
  | none => (s.computeBounds, { s with boundsCache := some s.computeBounds })

end Scene

/-! ## Renderer (renderer.py) -/

/-- The renderer's resident-resource sets (`self._meshes`,
`self._mesh_textures`, `self._shadow_textures`). -/
structure RendererState where
  meshes : List Nat
  mesh_textures : List Nat
  shadow_textures : List Nat
deriving DecidableEq, Repr

/-- A freshly constructed `Renderer`'s resource sets. -/
def RendererState.init : RendererState := ⟨[], [], []⟩

/-- Set difference on the resource sets (`A - B` on Python sets). -/
def setDiff (a b : List Nat) : List Nat := a.filter (fun x => x ∉ b)

/-- How many uploads and releases one `_update_context` call performed. -/
structure SyncStats where
  meshUploads : Nat
  meshReleases : Nat
  textureUploads : Nat
  textureReleases : Nat
  shadowTextureUploads : Nat
  shadowTextureReleases : Nat
deriving DecidableEq, Repr

/-- The all-zero statistics: no uploads, no releases. -/
def SyncStats.zero : SyncStats := ⟨0, 0, 0, 0, 0, 0⟩

/-! ### Framebuffer readback (`_read_main_framebuffer`, `read_depth_buf`)

`glReadPixels` returns a flat buffer; it is modelled as an index
function (depth values as rationals, color bytes as `Fin 256`).
`np.reshape((h, w))` and `np.flip(axis=0)` become nested `List.range`
maps and a row reversal. -/

/-- `np.frombuffer(...).reshape((h, w))` on a flat row-major buffer. -/
def reshape2 {α : Type} (raw : Nat → α) (h w : Nat) : List (List α) :=
  (List.range h).map fun i => (List.range w).map fun j => raw (i * w + j)

/-- `np.frombuffer(...).reshape((h, w, c))` on a flat row-major buffer. -/
def reshape3 {α : Type} (raw : Nat → α) (h w c : Nat) : List (List (List α)) :=
  (List.range h).map fun i =>
    (List.range w).map fun j =>
      (List.range c).map fun k => raw ((i * w + j) * c + k)

/-- The per-pixel effect of the depth conversion shared by
`Renderer._read_main_framebuffer` and `Renderer.read_depth_buf`: pixels
whose stored depth is exactly `1.0` are masked out before the buffer-wide
`2·d − 1` rescale and set to `0.0` at the end; every other pixel goes
through the perspective linearization for the camera's near/far planes
(`z_far = none` is the infinite projection). -/
def linearizeDepth (z_near : ℚ) (z_far : Option ℚ) (d : ℚ) : ℚ :=
  if d = 1 then 0
  else
    let ndc := 2 * d - 1
    match z_far with
    | none => 2 * z_near / (1 - ndc)
    | some f => 2 * z_near * f / (f + z_near - ndc * (f - z_near))

/-- One row of the depth buffer through the numpy steps of
`_read_main_framebuffer` lines 1153–1164: record the `== 1.0` mask,
rescale everything to NDC, linearize the unmasked entries, zero the
masked ones. -/
def linearizeDepthRow (z_near : ℚ) (z_far : Option ℚ) (row : List ℚ) :
    List ℚ :=
  let infMask := row.map fun d => d == 1
  let scaled := row.map fun d => 2 * d - 1
  (infMask.zip scaled).map fun p =>
    if p.1 then 0
    else
      match z_far with
      | none => 2 * z_near / (1 - p.2)
      | some f => 2 * z_near * f / (f + z_near - p.2 * (f - z_near))

/-- What one render call hands back. -/
inductive RenderOutput where
  | onscreen
  | depthOnly (depth : List (List ℚ))
  | colorDepth (color : List (List (List (Fin 256)))) (depth : List (List ℚ))
deriving DecidableEq, Repr


namespace Renderer

/-- Whether a light's shadow category is enabled by `flags`
(the `isinstance` chain in `_update_context`). -/
def lightActive (flags : Nat) : LightType → Bool
  | .directional => flags &&& RenderFlags.SHADOWS_DIRECTIONAL ≠ 0
  | .point => flags &&& RenderFlags.SHADOWS_POINT ≠ 0
  | .spot => flags &&& RenderFlags.SHADOWS_SPOT ≠ 0

/-- One iteration of the shadow-texture loop of `_update_context`: lazily
generate the shadow texture of an active light (raising for point
lights), then add the light's shadow texture, if any, to the collected
set.  The loop mutates only the light objects, so it is written over
the light-object map. -/
def shadowStep (flags : Nat) (genTex : Nat → Nat)
    (acc : (Nat → Light) × List Nat) (l : Nat) :
    Except String ((Nat → Light) × List Nat) := do
  let (ld, st) := acc
  let ld ←
    if lightActive flags (ld l).ty ∧ (ld l).shadow_texture = none then
      match Light._generate_shadow_texture (ld l) none (genTex l) with
      | .error e => throw e
      | .ok l' => pure (fupd ld l l')
    else pure ld
  let st :=
    match (ld l).shadow_texture with
    | some t => if t ∈ st then st else st ++ [t]
    | none => st
  pure (ld, st)

/-- `Renderer._update_context(scene, flags)`: diff the scene's live mesh
set, mesh-texture set and shadow-texture set against the resident sets,
recording how many uploads (`_add_to_context`) and releases (`delete`)
that implies, and replace the resident sets. -/
def _update_context (s : Scene) (r : RendererState) (flags : Nat) :
    Except String (Scene × RendererState × SyncStats) := do
  let scene_meshes := s.meshes
  let meshU := setDiff scene_meshes r.meshes
  let meshR := setDiff r.meshes scene_meshes
  let r := { r with meshes := scene_meshes }
  let mesh_textures := (scene_meshes.map s.meshPrimTex).flatten.dedup
  let texU := setDiff mesh_textures r.mesh_textures
  let texR := setDiff r.mesh_textures mesh_textures
  let r := { r with mesh_textures := mesh_textures }
  let (ld, shadow_textures) ← s.lights.foldlM
    (shadowStep flags s.genShadowTex) (s.lightData, [])
  let s := { s with lightData := ld }
  let shU := setDiff shadow_textures r.shadow_textures
  let shR := setDiff r.shadow_textures shadow_textures
  let r := { r with shadow_textures := shadow_textures }
  pure (s, r,
    ⟨meshU.length, meshR.length, texU.length, texR.length,
     shU.length, shR.length⟩)

/-- `Renderer._get_camera_matrices(scene)`: `ValueError` when the scene
has no main camera node.  The projection and inverse-pose matrices it
returns feed only the GL pipeline, so the successful branch returns the
main camera node itself. -/
def _get_camera_matrices (s : Scene) : Except String Nat :=
  match s.main_camera_node with
  | none => .error "ValueError: Cannot render scene without a camera"
  | some n => .ok n

/-- `Renderer._read_main_framebuffer(scene, flags)`: blit and read the
depth buffer, reshape it to `(h, w)`, flip it vertically, linearize it
with the main camera's near/far planes; return it alone under
`DEPTH_ONLY`, otherwise together with the color buffer reshaped to
`(h, w, 4)` under `RGBA` and `(h, w, 3)` otherwise (also flipped
vertically). -/
def _read_main_framebuffer (z_near : ℚ) (z_far : Option ℚ)
    (flags w h : Nat) (rawDepth : Nat → ℚ) (rawColor : Nat → Fin 256) :
    RenderOutput :=
  let depth_im := ((reshape2 rawDepth h w).reverse).map
    (linearizeDepthRow z_near z_far)
  if flags &&& RenderFlags.DEPTH_ONLY ≠ 0 then .depthOnly depth_im
  else
    let c := if flags &&& RenderFlags.RGBA ≠ 0 then 4 else 3
    let color_im := (reshape3 rawColor h w c).reverse
    .colorDepth color_im depth_im

/-- `Renderer._forward_pass(scene, flags)`.  Line 329 reads
`RenderFlags.SEG`, an attribute the `RenderFlags` class of this source
tree does not define, so the pass stops there with an `AttributeError`;
the remainder embeds the intended path: the main-camera check of
`_get_camera_matrices`, the draw calls (GL state only, not modelled),
and the offscreen readback. -/
def _forward_pass (s : Scene) (flags w h : Nat) (rawDepth : Nat → ℚ)
    (rawColor : Nat → Fin 256) : Except String RenderOutput := do
  let _seg ←
    match RenderFlags.getattr "SEG" with
    | some v => pure (flags &&& v != 0)
    | none =>
        throw "AttributeError: type object RenderFlags has no attribute SEG"
  let camNode ← _get_camera_matrices s
  let z_near := match s.cameraOf camNode with
    | some c => s.camZnear c
    | none => 0
  let z_far := match s.cameraOf camNode with
    | some c => s.camZfar c
    | none => none
  if flags &&& RenderFlags.OFFSCREEN ≠ 0 then
    pure (_read_main_framebuffer z_near z_far flags w h rawDepth rawColor)
  else
    pure .onscreen

/-- `Renderer.render(scene, flags)`: resource sync, the shadow-pass gate
of line 128 (whose `or` short-circuits, so `RenderFlags.SEG` is only
read when the depth-only test is falsy), then the forward pass.  The
shadow-mapping passes themselves write only GL state and are not
modelled. -/
def render (s : Scene) (r : RendererState) (flags w h : Nat)
    (rawDepth : Nat → ℚ) (rawColor : Nat → Fin 256) :
    Except String (RenderOutput × Scene × RendererState × SyncStats) := do
  let (s, r, stats) ← _update_context s r flags
  let _shadowGate ←
    if flags &&& RenderFlags.DEPTH_ONLY ≠ 0 then pure true
    else
      match RenderFlags.getattr "SEG" with
      | some v => pure (flags &&& v != 0)
      | none =>
          throw "AttributeError: type object RenderFlags has no attribute SEG"
  let out ← _forward_pass s flags w h rawDepth rawColor
  pure (out, s, r, stats)

end Renderer

/-! ## Derived definitions for the bounds claims -/

/-- Axis-aligned union of two boxes. -/
def Box.union (a b : Box) : Box := ⟨vmin a.lo b.lo, vmax a.hi b.hi⟩

/-- The `[min, max]` box of a corner list, `none` for the empty list. -/
def cornersBox : List Vec3 → Option Box
  | [] => none
  | v :: vs => some ⟨foldMin v vs, foldMax v vs⟩

/-- Merge of optional boxes: union when both are present. -/
def omerge : Option Box → Option Box → Option Box
  | none, b => b
  | some a, none => some a
  | some a, some b => some (Box.union a b)

namespace Scene

/-- The world-space axis-aligned box of one mesh node (`none` when the
node carries no mesh). -/
def nodeWorldBox (s : Scene) (n : Nat) : Option Box :=
  cornersBox (s.nodeWorldCorners n)

/-- Whether the mesh attached to a node is visible. -/
def nodeVisible (s : Scene) (n : Nat) : Bool :=
  match s.meshOf n with
  | some m => (s.meshData m).is_visible
  | none => false

/-- Modelled from the spec: "scene bounds equal the axis-aligned union,
in world space, of every *visible* mesh-node's local bounding box
transformed by its world pose", the zero box when that union is empty. -/
def specBoundsVisible (s : Scene) : Box :=
  match (s.mesh_nodes.filter s.nodeVisible).filterMap s.nodeWorldBox with
  | [] => Box.zero
  | b :: bs => bs.foldl Box.union b

/-- The amended reading of the bounds claim: the axis-aligned union, in
world space, of *every* mesh-node's local bounding box transformed by
its world pose, visible or not; the zero box with no mesh nodes. -/
def specBoundsAll (s : Scene) : Box :=
  match s.mesh_nodes.filterMap s.nodeWorldBox with
  | [] => Box.zero
  | b :: bs => bs.foldl Box.union b

/-- The invariant relating main camera and camera nodes: no main camera
exactly with no camera nodes, and a main camera that is itself a camera
node. -/
def cameraInv (s : Scene) : Bool :=
  match s.main_camera_node with
  | none => s.camera_nodes.isEmpty
  | some m => m ∈ s.camera_nodes

end Scene

/-- The message of a failed call, `none` on success. -/
def errMsg {α : Type} : Except String α → Option String
  | .error e => some e
  | .ok _ => none

/-! ## Concrete scenes used by witnesses and counterexamples -/

/-- A freshly constructed `Scene()` over a default object universe:
no nodes, empty indices, no main camera, default cameras with
`znear = 0.05`, `zfar = 100.0`, meshes with unit visibility and zero
bounds, directional lights with no shadow texture. -/
def emptyScene : Scene :=
  { nodes := []
    parent := fun _ => none
    childrenOf := fun _ => []
    localMatrix := fun _ => 1
    meshOf := fun _ => none
    cameraOf := fun _ => none
    lightOf := fun _ => none
    mesh_nodes := []
    camera_nodes := []
    point_light_nodes := []
    spot_light_nodes := []
    directional_light_nodes := []
    main_camera_node := none
    boundsCache := none
    meshData := fun _ => { primitives := [], is_visible := true, bounds := Box.zero }
    meshPrimTex := fun _ => []
    camZnear := fun _ => 1/20
    camZfar := fun _ => some 100
    lightData := fun _ => { ty := .directional, shadow_texture := none }
    genShadowTex := fun _ => 0 }

/-- Unwrap a scene-producing operation, falling back to the empty scene
on error (the fallback is never hit in the concrete constructions
below). -/
def unwrapScene (e : Except String Scene) : Scene :=
  match e with
  | .ok s => s
  | .error _ => emptyScene

/-- A three-node parent chain `1 → 2 → 3` (node 3 is the grandchild)
with distinct local matrices. -/
def chainScene : Scene :=
  { emptyScene with
    nodes := [3, 2, 1]
    parent := fun n => if n = 3 then some 2 else if n = 2 then some 1 else none
    localMatrix := fun n =>
      if n = 2 then ⟨⟨1,0,0,2⟩, ⟨0,1,0,0⟩, ⟨0,0,1,0⟩, ⟨0,0,0,1⟩⟩
      else if n = 3 then ⟨⟨2,0,0,0⟩, ⟨0,2,0,0⟩, ⟨0,0,2,0⟩, ⟨0,0,0,1⟩⟩
      else 1 }

/-- The claim-C1 scenario: one visible unit-box mesh node, one
directional-light node, one perspective main-camera node (`zfar` finite). -/
def boxScene : Scene :=
  { emptyScene with
    nodes := [1, 2, 3]
    meshOf := fun n => if n = 1 then some 10 else none
    lightOf := fun n => if n = 2 then some 20 else none
    cameraOf := fun n => if n = 3 then some 30 else none
    mesh_nodes := [1]
    directional_light_nodes := [2]
    camera_nodes := [3]
    main_camera_node := some 3
    meshData := fun _ =>
      { primitives := [], is_visible := true,
        bounds := ⟨⟨-(1/2), -(1/2), -(1/2)⟩, ⟨1/2, 1/2, 1/2⟩⟩ } }

/-- Two camera nodes, node 1 the main camera. -/
def twoCameraScene : Scene :=
  { emptyScene with
    nodes := [1, 2]
    cameraOf := fun n => if n = 1 then some 31 else if n = 2 then some 32 else none
    camera_nodes := [1, 2]
    main_camera_node := some 1 }

/-- A single camera node, the main camera. -/
def oneCameraScene : Scene :=
  { emptyScene with
    nodes := [1]
    cameraOf := fun n => if n = 1 then some 31 else none
    camera_nodes := [1]
    main_camera_node := some 1 }

/-- A camera-less scene (what remains after removing the only camera
node). -/
def noCameraScene : Scene :=
  unwrapScene (Scene.remove_node oneCameraScene 1)

/-- A scene holding one point-light node. -/
def pointLightScene : Scene :=
  { emptyScene with
    nodes := [1]
    lightOf := fun n => if n = 1 then some 40 else none
    point_light_nodes := [1]
    lightData := fun _ => { ty := .point, shadow_texture := none } }

/-- A scene with one directional-light node, for the idempotence
witness. -/
def dirLightScene : Scene :=
  { emptyScene with
    nodes := [1, 2]
    meshOf := fun n => if n = 1 then some 10 else none
    lightOf := fun n => if n = 2 then some 20 else none
    mesh_nodes := [1]
    directional_light_nodes := [2]
    meshPrimTex := fun m => if m = 10 then [7] else []
    genShadowTex := fun _ => 90 }

/-- What the first `_update_context` call on `dirLightScene` leaves as
the scene: the directional light now owns shadow texture `90`. -/
def C7s1 : Scene :=
  { dirLightScene with
    lightData := fupd dirLightScene.lightData 20
      ⟨LightType.directional, some 90⟩ }

/-- What the first `_update_context` call on `dirLightScene` leaves as
the renderer's resident sets. -/
def C7r1 : RendererState := ⟨[10], [7], [90]⟩

/-- The node universe for the C6 counterexample: node 1 carries a
visible unit box, node 2 an *invisible* box over `[5,6]³`. -/
def visInvisBase : Scene :=
  { emptyScene with
    meshOf := fun n => if n = 1 then some 10 else if n = 2 then some 11 else none
    meshData := fun m =>
      if m = 11 then
        { primitives := [], is_visible := false, bounds := ⟨⟨5,5,5⟩, ⟨6,6,6⟩⟩ }
      else
        { primitives := [], is_visible := true, bounds := ⟨⟨0,0,0⟩, ⟨1,1,1⟩⟩ } }

/-- The C6 counterexample scene: both nodes inserted by `add_node`. -/
def visInvisScene : Scene :=
  unwrapScene (do
    let s ← Scene.add_node 4 visInvisBase 1 none
    Scene.add_node 4 s 2 none)

/-- The node universe for the stale-bounds counterexample: mesh-free
group node 1 whose child node 2 carries a visible unit box. -/
def gcBase : Scene :=
  { emptyScene with
    meshOf := fun n => if n = 2 then some 10 else none
    childrenOf := fun n => if n = 1 then [2] else []
    meshData := fun _ =>
      { primitives := [], is_visible := true, bounds := ⟨⟨0,0,0⟩, ⟨1,1,1⟩⟩ } }

/-- The group-node subtree inserted, then the bounds read once, so the
box is cached. -/
def groupChildSceneCached : Scene :=
  (Scene.bounds (unwrapScene (Scene.add_node 4 gcBase 1 none))).2

/-- The translation by `(10, 0, 0)` applied to the group node. -/
def moveMat : Mat4 := ⟨⟨1,0,0,10⟩, ⟨0,1,0,0⟩, ⟨0,0,1,0⟩, ⟨0,0,0,1⟩⟩

/-- `groupChildSceneCached` after `set_pose` moves the mesh-free group
node: the stale cached box survives because `set_pose` drops the cache
only for nodes that themselves carry a mesh. -/
def groupChildSceneMoved : Scene :=
  unwrapScene (Scene.set_pose groupChildSceneCached 1 moveMat)

/-- `visInvisScene` written out: what the two `add_node` calls produce. -/
def visInvisNorm : Scene :=
  { visInvisBase with
    nodes := [2, 1]
    mesh_nodes := [2, 1]
    parent := fupd (fupd visInvisBase.parent 1 none) 2 none
    boundsCache := none }

/-- The group-node scene written out: what the `add_node` call on
`gcBase` produces. -/
def gcNorm : Scene :=
  { gcBase with
    nodes := [2, 1]
    mesh_nodes := [2]
    parent := fupd (fupd gcBase.parent 1 none) 2 (some 1)
    boundsCache := none }

/-- A single visible mesh node with an empty bounds cache, for the C6
witness. -/
def w6Scene : Scene :=
  { emptyScene with
    nodes := [1]
    meshOf := fun n => if n = 1 then some 10 else none
    mesh_nodes := [1]
    meshData := fun _ =>
      { primitives := [], is_visible := true, bounds := ⟨⟨0,0,0⟩, ⟨1,1,1⟩⟩ } }

/-- The C10 witness scene: one camera-less node, main camera unset, and
an off-scene node `5` that carries a camera. -/
def c10Scene : Scene :=
  { emptyScene with
    nodes := [1]
    cameraOf := fun n => if n = 5 then some 33 else none }

/-- `c10Scene` after `add_node` inserts the camera node `5`. -/
def c10sAdd : Scene := unwrapScene (Scene.add_node 4 c10Scene 5 none)

/-- `c10Scene` after `remove_node` removes its only node. -/
def c10sRem : Scene := unwrapScene (Scene.remove_node c10Scene 1)

/-- A texture whose RGBA source contains a fully transparent texel. -/
def transparentTexelTexture : Texture := Texture.init "RGBA" (some [0])

/-- A MASK material with opaque base color factor but a transparent
base color texture: the claim says it must be transparent. -/
def maskTexMaterial : MetallicRoughnessMaterial :=
  { alphaMode := "MASK", alphaCutoff := 1/2, baseColorFactorAlpha := 1,
    baseColorTexture := some transparentTexelTexture }

/-! ## Matrix algebra lemmas -/

theorem Mat4.vec4_ext (u v : Vec4) (ha : u.a = v.a) (hb : u.b = v.b)
    (hc : u.c = v.c) (hd : u.d = v.d) : u = v := by
  cases u; cases v; simp_all

theorem Mat4.mat4_ext (m n : Mat4) (h0 : m.r0 = n.r0) (h1 : m.r1 = n.r1)
    (h2 : m.r2 = n.r2) (h3 : m.r3 = n.r3) : m = n := by
  cases m; cases n; simp_all

theorem Mat4.one_mul (m : Mat4) : 1 * m = m := by
  show Mat4.mul Mat4.one m = m
  refine Mat4.mat4_ext _ _ ?_ ?_ ?_ ?_ <;>
    refine Mat4.vec4_ext _ _ ?_ ?_ ?_ ?_ <;>
      simp only [Mat4.mul, Mat4.rdot, Mat4.one] <;> ring

theorem Mat4.mul_one (m : Mat4) : m * 1 = m := by
  show Mat4.mul m Mat4.one = m
  refine Mat4.mat4_ext _ _ ?_ ?_ ?_ ?_ <;>
    refine Mat4.vec4_ext _ _ ?_ ?_ ?_ ?_ <;>
      simp only [Mat4.mul, Mat4.rdot, Mat4.one] <;> ring

theorem Mat4.mul_assoc (m n p : Mat4) : m * n * p = m * (n * p) := by
  show Mat4.mul (Mat4.mul m n) p = Mat4.mul m (Mat4.mul n p)
  refine Mat4.mat4_ext _ _ ?_ ?_ ?_ ?_ <;>
    refine Mat4.vec4_ext _ _ ?_ ?_ ?_ ?_ <;>
      simp only [Mat4.mul, Mat4.rdot] <;> ring

/-! ## Claim C2: world pose of a node chain -/

/-- Unfolding one step of the path computation. -/
theorem Scene.pathToWorld_succ (s : Scene) (fuel n : Nat) :
    s.pathToWorld (fuel + 1) n =
      n :: (match s.parent n with
            | none => []
            | some p => s.pathToWorld fuel p) := rfl

/-- C2: for every scene node `c` reached from root `a` through `b`, the
world pose returned by `get_pose` is the left-fold product
`matrix(a) · matrix(b) · matrix(c)` of the local matrices along the
path to the root, each ancestor's matrix applied on the left of its
child's accumulated result; and `get_pose` raises a `ValueError` for
any node that is not in the scene. -/
theorem C2_get_pose_chain (s : Scene) (a b c x : Nat)
    (hc : c ∈ s.nodes) (hpc : s.parent c = some b) (hpb : s.parent b = some a)
    (hpa : s.parent a = none) (hlen : 3 ≤ s.nodes.length) (hx : x ∉ s.nodes) :
    s.get_pose c = .ok (s.localMatrix a * s.localMatrix b * s.localMatrix c) ∧
    s.get_pose x = .error "ValueError: Node must already be in scene" := by
  constructor
  · obtain ⟨k, hk⟩ := Nat.le.dest hlen
    have hk' : s.nodes.length = (k + 2) + 1 := by omega
    have hpath : s.pathToWorld s.nodes.length c = [c, b, a] := by
      rw [hk']
      simp only [Scene.pathToWorld_succ, hpc, hpb, hpa]
    simp only [Scene.get_pose, if_pos hc]
    rw [Scene.poseOf, hpath]
    simp only [List.foldl]
    rw [Mat4.mul_one, ← Mat4.mul_assoc]
  · simp only [Scene.get_pose, if_neg hx]

/-- Witness for C2 on the concrete chain `1 → 2 → 3` with explicit
matrices, plus the missing node `0`. -/
theorem C2_get_pose_chain_witness :
    chainScene.get_pose 3 =
      .ok (chainScene.localMatrix 1 * chainScene.localMatrix 2 *
           chainScene.localMatrix 3) ∧
    chainScene.get_pose 0 = .error "ValueError: Node must already be in scene" :=
  C2_get_pose_chain chainScene 1 2 3 0 (by decide) (by decide) (by decide)
    (by decide) (by decide) (by decide)

/-! ## Claim C5: depth linearization -/

/-- One step of `linearizeDepthRow`. -/
theorem linearizeDepthRow_cons (zn : ℚ) (zf : Option ℚ) (d : ℚ) (row : List ℚ) :
    linearizeDepthRow zn zf (d :: row) =
      linearizeDepth zn zf d :: linearizeDepthRow zn zf row := by
  simp only [linearizeDepthRow, List.map_cons, List.zip_cons_cons, List.map]
  congr 1
  by_cases h : d = 1
  · simp [linearizeDepth, h]
  · cases zf <;> simp [linearizeDepth, h]

/-- The buffer-wide numpy steps (mask at `1.0`, rescale, linearize the
rest, zero the masked pixels) act pixelwise as `linearizeDepth`. -/
theorem linearizeDepthRow_eq (zn : ℚ) (zf : Option ℚ) (row : List ℚ) :
    linearizeDepthRow zn zf row = row.map (linearizeDepth zn zf) := by
  induction row with
  | nil => rfl
  | cons d row ih => rw [linearizeDepthRow_cons, ih, List.map_cons]

/-- C5: the depth readback converts every stored depth value `d` with
`depth_ndc = 2·d − 1` to `2·n·f / (f + n − depth_ndc·(f − n))` for a
finite far plane and to `2·n / (1 − depth_ndc)` for an infinite one
(`zfar = none`), while every pixel stored as exactly `1.0` (background)
maps to exactly `0`. -/
theorem C5_depth_linearization (z_near : ℚ) (z_far : Option ℚ) (row : List ℚ) :
    linearizeDepthRow z_near z_far row = row.map (linearizeDepth z_near z_far) ∧
    (∀ d : ℚ, d ≠ 1 →
      linearizeDepth z_near z_far d =
        (match z_far with
         | none => 2 * z_near / (1 - (2 * d - 1))
         | some f => 2 * z_near * f / (f + z_near - (2 * d - 1) * (f - z_near)))) ∧
    linearizeDepth z_near z_far 1 = 0 := by
  refine ⟨linearizeDepthRow_eq z_near z_far row, ?_, ?_⟩
  · intro d hd
    simp [linearizeDepth, hd]
  · simp [linearizeDepth]

/-- Witness for C5: a background pixel and an interior pixel at
`znear = 0.05`, `zfar = 100`. -/
theorem C5_depth_linearization_witness :
    linearizeDepth (1/20) (some 100) (1/2) =
      2 * (1/20) * 100 / (100 + 1/20 - (2 * (1/2) - 1) * (100 - 1/20)) ∧
    linearizeDepth (1/20) (some 100) 1 = 0 :=
  ⟨(C5_depth_linearization (1/20) (some 100) []).2.1 (1/2) (by norm_num),
   (C5_depth_linearization (1/20) (some 100) []).2.2⟩

/-! ## Claim C3: the transparency predicate -/

/-- C3 (failing input): a freshly constructed texture's
`_is_transparent` slot holds `False`, never `None`, so
`Texture.is_transparent` ignores the alpha channel and returns `False`
for every cutoff; a MASK material whose base-color texture has a texel
alpha `0 < cutoff` is therefore reported opaque, against the claim.
Re-running the same lookup with the memo slot restored to `None` — the
state the recompute branch was written for — reports transparent. -/
theorem C3_texture_transparency_dead :
    maskTexMaterial._compute_transparency = false ∧
    transparentTexelTexture.is_transparent (1/2) = false ∧
    transparentTexelTexture.is_transparent 1 = false ∧
    ({ transparentTexelTexture with isTransparentMemo := none} : Texture).is_transparent (1/2) = true := by
  refine ⟨?_, ?_, ?_, ?_⟩ <;>
    norm_num +decide [maskTexMaterial, transparentTexelTexture, Texture.init,
      MetallicRoughnessMaterial._compute_transparency, Texture.is_transparent]

/-! ## Claim C6: scene bounds

The chain below shows that the min/max over the stacked corner list that
`Scene.bounds` computes coincides with the axis-aligned union of the
per-node world boxes. -/

theorem vmin_assoc (a b c : Vec3) : vmin (vmin a b) c = vmin a (vmin b c) := by
  simp [vmin, min_assoc]

theorem vmax_assoc (a b c : Vec3) : vmax (vmax a b) c = vmax a (vmax b c) := by
  simp [vmax, max_assoc]

theorem foldl_vmin_pull (ws : List Vec3) :
    ∀ a w, List.foldl vmin (vmin a w) ws = vmin a (List.foldl vmin w ws) := by
  induction ws with
  | nil => intro a w; rfl
  | cons u ws ih =>
      intro a w
      rw [List.foldl_cons, List.foldl_cons, vmin_assoc, ih]

theorem foldl_vmax_pull (ws : List Vec3) :
    ∀ a w, List.foldl vmax (vmax a w) ws = vmax a (List.foldl vmax w ws) := by
  induction ws with
  | nil => intro a w; rfl
  | cons u ws ih =>
      intro a w
      rw [List.foldl_cons, List.foldl_cons, vmax_assoc, ih]

theorem foldMin_append_cons (v w : Vec3) (vs ws : List Vec3) :
    foldMin v (vs ++ w :: ws) = vmin (foldMin v vs) (foldMin w ws) := by
  unfold foldMin
  rw [List.foldl_append, List.foldl_cons, foldl_vmin_pull]

theorem foldMax_append_cons (v w : Vec3) (vs ws : List Vec3) :
    foldMax v (vs ++ w :: ws) = vmax (foldMax v vs) (foldMax w ws) := by
  unfold foldMax
  rw [List.foldl_append, List.foldl_cons, foldl_vmax_pull]

theorem cornersBox_append (xs ys : List Vec3) :
    cornersBox (xs ++ ys) = omerge (cornersBox xs) (cornersBox ys) := by
  cases xs with
  | nil => rfl
  | cons v vs =>
      cases ys with
      | nil => simp [cornersBox, omerge]
      | cons w ws =>
          show cornersBox (v :: (vs ++ w :: ws)) = _
          simp only [cornersBox, omerge, Box.union]
          rw [foldMin_append_cons, foldMax_append_cons]

theorem omerge_none_right (a : Option Box) : omerge a none = a := by
  cases a <;> rfl

theorem Box.union_assoc (a b c : Box) :
    Box.union (Box.union a b) c = Box.union a (Box.union b c) := by
  simp [Box.union, vmin_assoc, vmax_assoc]

theorem omerge_assoc (a b c : Option Box) :
    omerge (omerge a b) c = omerge a (omerge b c) := by
  cases a <;> cases b <;> cases c <;> simp [omerge, Box.union_assoc]

theorem foldl_omerge_pull (L : List (Option Box)) :
    ∀ a b, L.foldl omerge (omerge a b) = omerge a (L.foldl omerge b) := by
  induction L with
  | nil => intro a b; rfl
  | cons c L ih =>
      intro a b
      rw [List.foldl_cons, List.foldl_cons, omerge_assoc, ih]

theorem cornersBox_flatten (L : List (List Vec3)) :
    cornersBox L.flatten = (L.map cornersBox).foldl omerge none := by
  induction L with
  | nil => rfl
  | cons xs L ih =>
      rw [List.flatten_cons, cornersBox_append, ih, List.map_cons,
          List.foldl_cons]
      have hred : omerge none (cornersBox xs) = cornersBox xs := rfl
      rw [hred]
      conv_rhs => rw [← omerge_none_right (cornersBox xs)]
      rw [foldl_omerge_pull]

theorem foldl_union_pull (cs : List Box) :
    ∀ b c, cs.foldl Box.union (Box.union b c) = Box.union b (cs.foldl Box.union c) := by
  induction cs with
  | nil => intro b c; rfl
  | cons d cs ih =>
      intro b c
      rw [List.foldl_cons, List.foldl_cons, Box.union_assoc, ih]

theorem foldl_omerge_filterMap (l : List Nat) (g : Nat → Option Box) :
    (l.map g).foldl omerge none =
      (match l.filterMap g with
       | [] => none
       | b :: bs => some (bs.foldl Box.union b)) := by
  induction l with
  | nil => rfl
  | cons n l ih =>
      rw [List.map_cons, List.foldl_cons]
      cases hg : g n with
      | none =>
          have : omerge none none = none := rfl
          rw [List.filterMap_cons_none hg]
          simpa [omerge] using ih
      | some b =>
          rw [List.filterMap_cons_some hg]
          have h1 : (l.map g).foldl omerge (omerge none (some b)) =
              (l.map g).foldl omerge (some b) := rfl
          rw [h1]
          have h2 : (l.map g).foldl omerge (some b) =
              omerge (some b) ((l.map g).foldl omerge none) := by
            calc (l.map g).foldl omerge (some b)
                = (l.map g).foldl omerge (omerge (some b) none) := by
                  rw [omerge_none_right]
              _ = omerge (some b) ((l.map g).foldl omerge none) :=
                  foldl_omerge_pull _ _ _
          rw [h2, ih]
          cases hfm : l.filterMap g with
          | nil => rfl
          | cons c cs =>
              show some (Box.union b (cs.foldl Box.union c)) =
                some ((c :: cs).foldl Box.union b)
              rw [List.foldl_cons, foldl_union_pull]

/-- The uncached bounds computation of `scene.py`, a min/max over the
stacked world-corner list, equals the axis-aligned union over the
per-mesh-node world boxes. -/
theorem Scene.computeBounds_eq_specAll (s : Scene) :
    s.computeBounds = s.specBoundsAll := by
  have h1 : s.computeBounds =
      (cornersBox ((s.mesh_nodes.map s.nodeWorldCorners).flatten)).getD Box.zero := by
    unfold Scene.computeBounds cornersBox
    cases (s.mesh_nodes.map s.nodeWorldCorners).flatten <;> rfl
  have h2 : (s.mesh_nodes.map s.nodeWorldCorners).map cornersBox =
      s.mesh_nodes.map s.nodeWorldBox := by
    rw [List.map_map]; rfl
  rw [h1, cornersBox_flatten, h2, foldl_omerge_filterMap]
  unfold Scene.specBoundsAll
  cases s.mesh_nodes.filterMap s.nodeWorldBox <;> rfl

/-- Reading `Scene.bounds` with a coherent cache yields the union box. -/
theorem Scene.bounds_fst (s : Scene)
    (hcache : s.boundsCache = none ∨ s.boundsCache = some s.computeBounds) :
    (s.bounds).1 = s.specBoundsAll := by
  rcases hcache with h | h <;>
    simp [Scene.bounds, h, Scene.computeBounds_eq_specAll s]

/-- C6 (amended): at every point with a coherent bounds cache, scene
bounds equal the axis-aligned union in world space of *every* mesh
node's local bounding box transformed by its world pose — visible or
not — and equal the zero `(2,3)` box when no mesh nodes remain;
`set_pose` invalidates the cached bounds only when the posed node
itself carries a mesh, and a bounds read after such a `set_pose`
reflects the new world poses. -/
theorem C6_bounds_amended (s : Scene)
    (hcache : s.boundsCache = none ∨ s.boundsCache = some s.computeBounds) :
    ((s.bounds).1 = s.specBoundsAll) ∧
    (s.mesh_nodes = [] → (s.bounds).1 = Box.zero) ∧
    (∀ (n : Nat) (pose : Mat4) (s' : Scene),
        s.set_pose n pose = .ok s' → (s.meshOf n).isSome = true →
        s'.boundsCache = none ∧ (s'.bounds).1 = s'.specBoundsAll) := by
  refine ⟨Scene.bounds_fst s hcache, ?_, ?_⟩
  · intro hmn
    rw [Scene.bounds_fst s hcache]
    unfold Scene.specBoundsAll
    rw [hmn]
    rfl
  · intro n pose s' hset hmesh
    have hs' : s'.boundsCache = none := by
      unfold Scene.set_pose at hset
      by_cases h1 : n ∈ s.nodes
      · rw [if_pos h1] at hset
        by_cases h2 : pose.bottomRowOk
        · rw [if_pos h2] at hset
          rw [if_pos (by simpa using hmesh)] at hset
          cases hset
          rfl
        · rw [if_neg h2] at hset; cases hset
      · rw [if_neg h1] at hset; cases hset
    exact ⟨hs', Scene.bounds_fst s' (Or.inl hs')⟩

/-- Witness for C6 (amended) on a one-mesh-node scene with empty cache. -/
theorem C6_bounds_amended_witness :
    ((w6Scene.bounds).1 = w6Scene.specBoundsAll) ∧
    (w6Scene.boundsCache = none ∨ w6Scene.boundsCache = some w6Scene.computeBounds) :=
  ⟨(C6_bounds_amended w6Scene (Or.inl rfl)).1, Or.inl rfl⟩

/-- Unfolding multiplication and identity of `Mat4` for `simp`. -/
theorem Mat4.mul_def (m n : Mat4) : m * n = Mat4.mul m n := rfl

theorem Mat4.one_def : (1 : Mat4) = Mat4.one := rfl

/-- Unfolding the `Except` monad operations for `simp`. -/
theorem except_pure_def {α : Type} (a : α) :
    (pure a : Except String α) = .ok a := rfl

theorem except_bind_ok {α β : Type} (a : α) (f : α → Except String β) :
    (Except.ok a : Except String α) >>= f = f a := rfl

theorem except_bind_err {α β : Type} (e : String) (f : α → Except String β) :
    (Except.error e : Except String α) >>= f = .error e := rfl

/-- Componentwise extensionality for `Vec3`. -/
theorem Vec3.vec3_ext (u v : Vec3) (hx : u.x = v.x) (hy : u.y = v.y)
    (hz : u.z = v.z) : u = v := by
  cases u; cases v; simp_all

/-- The identity pose leaves a point unchanged. -/
theorem Mat4.transformPoint_one (v : Vec3) : (1 : Mat4).transformPoint v = v := by
  refine Vec3.vec3_ext _ _ ?_ ?_ ?_ <;>
    simp [Mat4.transformPoint, Mat4.one_def, Mat4.one]

/-- C6 (counterexample): the claim as stated fails on this code twice
over.  In `visInvisScene` (reached by two `add_node` calls) the bounds
the code computes include the invisible mesh's box, while the claimed
union over visible mesh nodes does not; in `groupChildSceneMoved`
(reached by `add_node`, a bounds read, and a `set_pose` on the
mesh-free group node) the code serves the stale cached box, while the
claimed union reflects the moved child. -/
theorem C6_bounds_counterexample :
    (Scene.bounds visInvisScene).1 = ⟨⟨0,0,0⟩, ⟨6,6,6⟩⟩ ∧
    visInvisScene.specBoundsVisible = ⟨⟨0,0,0⟩, ⟨1,1,1⟩⟩ ∧
    (Scene.bounds visInvisScene).1 ≠ visInvisScene.specBoundsVisible ∧
    (Scene.bounds groupChildSceneMoved).1 = ⟨⟨0,0,0⟩, ⟨1,1,1⟩⟩ ∧
    groupChildSceneMoved.specBoundsVisible = ⟨⟨10,0,0⟩, ⟨11,1,1⟩⟩ ∧
    (Scene.bounds groupChildSceneMoved).1 ≠ groupChildSceneMoved.specBoundsVisible := by
  -- the two `add_node` calls normalise to the expected record
  have hA : visInvisScene = visInvisNorm := rfl
  -- both nodes sit at the identity world pose
  have hpose1 : visInvisNorm.poseOf 1 = 1 := by
    show visInvisNorm.localMatrix 1 * 1 = 1
    exact Mat4.mul_one _
  have hpose2 : visInvisNorm.poseOf 2 = 1 := by
    show visInvisNorm.localMatrix 2 * 1 = 1
    exact Mat4.mul_one _
  have hnwc1 : visInvisNorm.nodeWorldCorners 1 =
      Box.corners ⟨⟨0,0,0⟩, ⟨1,1,1⟩⟩ := by
    show ((visInvisNorm.meshData 10).bounds.corners).map
      (visInvisNorm.poseOf 1).transformPoint = _
    rw [hpose1, show (visInvisNorm.meshData 10).bounds =
      (⟨⟨0,0,0⟩, ⟨1,1,1⟩⟩ : Box) from rfl]
    simp [Box.corners, Mat4.transformPoint_one]
  have hnwc2 : visInvisNorm.nodeWorldCorners 2 =
      Box.corners ⟨⟨5,5,5⟩, ⟨6,6,6⟩⟩ := by
    show ((visInvisNorm.meshData 11).bounds.corners).map
      (visInvisNorm.poseOf 2).transformPoint = _
    rw [hpose2, show (visInvisNorm.meshData 11).bounds =
      (⟨⟨5,5,5⟩, ⟨6,6,6⟩⟩ : Box) from rfl]
    simp [Box.corners, Mat4.transformPoint_one]
  have h1 : (Scene.bounds visInvisScene).1 = ⟨⟨0,0,0⟩, ⟨6,6,6⟩⟩ := by
    rw [hA]
    show visInvisNorm.computeBounds = _
    unfold Scene.computeBounds
    rw [show visInvisNorm.mesh_nodes.map visInvisNorm.nodeWorldCorners =
        [visInvisNorm.nodeWorldCorners 2, visInvisNorm.nodeWorldCorners 1] from rfl]
    rw [hnwc1, hnwc2]
    decide
  have h2 : visInvisScene.specBoundsVisible = ⟨⟨0,0,0⟩, ⟨1,1,1⟩⟩ := by
    rw [hA]
    unfold Scene.specBoundsVisible
    rw [show visInvisNorm.mesh_nodes.filter visInvisNorm.nodeVisible = [1] from rfl]
    rw [show ([1] : List Nat).filterMap visInvisNorm.nodeWorldBox =
        ((cornersBox (visInvisNorm.nodeWorldCorners 1)).toList : List Box) from rfl]
    rw [hnwc1]
    decide
  -- the group-node scene: insertion and the cached bounds read normalise
  have hcached : groupChildSceneCached =
      { gcNorm with boundsCache := some gcNorm.computeBounds } := rfl
  have hmoved : groupChildSceneMoved =
      { gcNorm with
        boundsCache := some gcNorm.computeBounds
        localMatrix := fupd gcNorm.localMatrix 1 moveMat } := rfl
  have hposeMoved : groupChildSceneMoved.poseOf 2 = moveMat * (1 * 1) := by
    rw [hmoved]
    rfl
  have hcornersMoved : groupChildSceneMoved.nodeWorldCorners 2 =
      Box.corners ⟨⟨10,0,0⟩, ⟨11,1,1⟩⟩ := by
    show ((groupChildSceneMoved.meshData 10).bounds.corners).map
      (groupChildSceneMoved.poseOf 2).transformPoint = _
    rw [hposeMoved, Mat4.mul_one, Mat4.mul_one,
        show (groupChildSceneMoved.meshData 10).bounds =
          (⟨⟨0,0,0⟩, ⟨1,1,1⟩⟩ : Box) from rfl]
    norm_num [Box.corners, moveMat, Mat4.transformPoint, Vec3.mk.injEq]
  have hposeGc2 : gcNorm.poseOf 2 = 1 := by
    show gcNorm.localMatrix 1 * (gcNorm.localMatrix 2 * 1) = 1
    show (1 : Mat4) * ((1 : Mat4) * 1) = 1
    rw [Mat4.mul_one, Mat4.mul_one]
  have hgcCorners : gcNorm.nodeWorldCorners 2 =
      Box.corners ⟨⟨0,0,0⟩, ⟨1,1,1⟩⟩ := by
    show ((gcNorm.meshData 10).bounds.corners).map
      (gcNorm.poseOf 2).transformPoint = _
    rw [hposeGc2, show (gcNorm.meshData 10).bounds =
      (⟨⟨0,0,0⟩, ⟨1,1,1⟩⟩ : Box) from rfl]
    simp [Box.corners, Mat4.transformPoint_one]
  have hgcCompute : gcNorm.computeBounds = ⟨⟨0,0,0⟩, ⟨1,1,1⟩⟩ := by
    unfold Scene.computeBounds
    rw [show gcNorm.mesh_nodes.map gcNorm.nodeWorldCorners =
        [gcNorm.nodeWorldCorners 2] from rfl]
    rw [hgcCorners]
    decide
  have h4 : (Scene.bounds groupChildSceneMoved).1 = ⟨⟨0,0,0⟩, ⟨1,1,1⟩⟩ := by
    rw [hmoved]
    show gcNorm.computeBounds = _
    exact hgcCompute
  have h5 : groupChildSceneMoved.specBoundsVisible = ⟨⟨10,0,0⟩, ⟨11,1,1⟩⟩ := by
    unfold Scene.specBoundsVisible
    rw [show groupChildSceneMoved.mesh_nodes.filter
        groupChildSceneMoved.nodeVisible = [2] from rfl]
    rw [show ([2] : List Nat).filterMap groupChildSceneMoved.nodeWorldBox =
        ((cornersBox (groupChildSceneMoved.nodeWorldCorners 2)).toList : List Box) from rfl]
    rw [hcornersMoved]
    decide
  refine ⟨h1, h2, ?_, h4, h5, ?_⟩
  · rw [h1, h2]
    intro h
    have := congrArg (fun b => b.hi.x) h
    norm_num at this
  · rw [h4, h5]
    intro h
    have := congrArg (fun b => b.lo.x) h
    norm_num at this

/-! ## Claim C7: idempotence of the resource sync -/

theorem setDiff_self (a : List Nat) : setDiff a a = [] := by
  rw [setDiff, List.filter_eq_nil_iff]
  intro x hx
  simp [hx]

/-- `shadowStep` with the monadic plumbing reduced away. -/
theorem shadowStep_eq (flags : Nat) (genTex : Nat → Nat)
    (ld : Nat → Light) (st : List Nat) (l : Nat) :
    Renderer.shadowStep flags genTex (ld, st) l =
      (if Renderer.lightActive flags (ld l).ty = true ∧
          (ld l).shadow_texture = none then
        match Light._generate_shadow_texture (ld l) none (genTex l) with
        | .error e => .error e
        | .ok l' =>
            .ok (fupd ld l l',
              match (fupd ld l l' l).shadow_texture with
              | some t => if t ∈ st then st else st ++ [t]
              | none => st)
      else
        .ok (ld, match (ld l).shadow_texture with
                 | some t => if t ∈ st then st else st ++ [t]
                 | none => st)) := by
  unfold Renderer.shadowStep
  rfl

/-- What one successful `shadowStep` guarantees: other lights untouched,
no-op when the processed light needs no generation, the processed light
never left both active and texture-less, and the collected list extended
by exactly the processed light's texture. -/
theorem shadowStep_spec (flags : Nat) (genTex : Nat → Nat)
    (ld : Nat → Light) (st : List Nat) (l : Nat)
    (ld2 : Nat → Light) (st2 : List Nat)
    (h : Renderer.shadowStep flags genTex (ld, st) l = .ok (ld2, st2)) :
    (∀ x, x ≠ l → ld2 x = ld x) ∧
    (¬(Renderer.lightActive flags (ld l).ty = true ∧
        (ld l).shadow_texture = none) → ld2 = ld) ∧
    ¬(Renderer.lightActive flags (ld2 l).ty = true ∧
        (ld2 l).shadow_texture = none) ∧
    st2 = (match (ld2 l).shadow_texture with
           | some t => if t ∈ st then st else st ++ [t]
           | none => st) := by
  rw [shadowStep_eq] at h
  by_cases hc : Renderer.lightActive flags (ld l).ty = true ∧
      (ld l).shadow_texture = none
  · rw [if_pos hc] at h
    cases hty : (ld l).ty with
    | point =>
        rw [show Light._generate_shadow_texture (ld l) none (genTex l) =
            .error "NotImplementedError: Shadows not implemented for point lights" from by
          unfold Light._generate_shadow_texture
          rw [hty]] at h
        simp [except_bind_err] at h
    | directional =>
        rw [show Light._generate_shadow_texture (ld l) none (genTex l) =
            .ok ⟨LightType.directional, some (genTex l)⟩ from by
          unfold Light._generate_shadow_texture
          rw [hty]] at h
        rw [Except.ok.injEq, Prod.mk.injEq] at h
        obtain ⟨hld, hst⟩ := h
        subst hld
        refine ⟨fun x hx => by simp [fupd, hx],
          fun hn => absurd (hty ▸ hc) hn, ?_, ?_⟩
        · simp [fupd]
        · rw [← hst]
    | spot =>
        rw [show Light._generate_shadow_texture (ld l) none (genTex l) =
            .ok ⟨LightType.spot, some (genTex l)⟩ from by
          unfold Light._generate_shadow_texture
          rw [hty]] at h
        rw [Except.ok.injEq, Prod.mk.injEq] at h
        obtain ⟨hld, hst⟩ := h
        subst hld
        refine ⟨fun x hx => by simp [fupd, hx],
          fun hn => absurd (hty ▸ hc) hn, ?_, ?_⟩
        · simp [fupd]
        · rw [← hst]
  · rw [if_neg hc] at h
    rw [Except.ok.injEq, Prod.mk.injEq] at h
    obtain ⟨hld, hst⟩ := h
    subst hld
    exact ⟨fun _ _ => rfl, fun _ => rfl, hc, hst.symm⟩

/-- Along a successful shadow fold, a light that already holds a shadow
texture, or whose category is inactive, is never modified. -/
theorem shadowFold_frozen (flags : Nat) (genTex : Nat → Nat) (L : List Nat) :
    ∀ (ld : Nat → Light) (st : List Nat) (ld1 : Nat → Light) (out : List Nat),
      L.foldlM (Renderer.shadowStep flags genTex) (ld, st) = .ok (ld1, out) →
      ∀ x, ((ld x).shadow_texture ≠ none ∨
            Renderer.lightActive flags (ld x).ty = false) →
        ld1 x = ld x := by
  induction L with
  | nil =>
      intro ld st ld1 out h x _
      simp only [List.foldlM, except_pure_def, Except.ok.injEq,
        Prod.mk.injEq] at h
      rw [h.1]
  | cons l L ih =>
      intro ld st ld1 out h x hx
      simp only [List.foldlM] at h
      cases hstep : Renderer.shadowStep flags genTex (ld, st) l with
      | error e => rw [hstep, except_bind_err] at h; cases h
      | ok p =>
          obtain ⟨ld2, st2⟩ := p
          rw [hstep, except_bind_ok] at h
          obtain ⟨hother, hnoop, _, _⟩ :=
            shadowStep_spec flags genTex ld st l ld2 st2 hstep
          have hfroz : ld2 x = ld x := by
            by_cases hxl : x = l
            · subst hxl
              apply congrFun
              apply hnoop
              intro hcontra
              rcases hx with hx | hx
              · exact hx hcontra.2
              · rw [hx] at hcontra; cases hcontra.1
            · exact hother x hxl
          have hx2 : (ld2 x).shadow_texture ≠ none ∨
              Renderer.lightActive flags (ld2 x).ty = false := by
            rw [hfroz]; exact hx
          rw [← hfroz]
          exact ih ld2 st2 ld1 out h x hx2

/-- A second pass of the shadow loop over the state a first successful
pass produced changes nothing and collects the same textures. -/
theorem shadowFold_idem (flags : Nat) (genTex : Nat → Nat) (L : List Nat) :
    ∀ (ld : Nat → Light) (st : List Nat) (ld1 : Nat → Light) (out : List Nat),
      L.foldlM (Renderer.shadowStep flags genTex) (ld, st) = .ok (ld1, out) →
      L.foldlM (Renderer.shadowStep flags genTex) (ld1, st) = .ok (ld1, out) := by
  induction L with
  | nil =>
      intro ld st ld1 out h
      simp only [List.foldlM, except_pure_def, Except.ok.injEq,
        Prod.mk.injEq] at h
      rw [h.2]
      rfl
  | cons l L ih =>
      intro ld st ld1 out h
      simp only [List.foldlM] at h ⊢
      cases hstep : Renderer.shadowStep flags genTex (ld, st) l with
      | error e => rw [hstep, except_bind_err] at h; cases h
      | ok p =>
          obtain ⟨ld2, st2⟩ := p
          rw [hstep, except_bind_ok] at h
          obtain ⟨_, _, hpost, hst2⟩ :=
            shadowStep_spec flags genTex ld st l ld2 st2 hstep
          have hfroz : ld1 l = ld2 l :=
            shadowFold_frozen flags genTex L ld2 st2 ld1 out h l
              (by
                by_cases hact : Renderer.lightActive flags (ld2 l).ty = true
                · left
                  intro hnone
                  exact hpost ⟨hact, hnone⟩
                · right
                  exact Bool.not_eq_true _ ▸ Bool.eq_false_iff.mpr
                    (fun hh => hact hh))
          have hstep2 : Renderer.shadowStep flags genTex (ld1, st) l =
              .ok (ld1, st2) := by
            rw [shadowStep_eq]
            rw [if_neg (by rw [hfroz]; exact hpost)]
            rw [hst2, hfroz]
          rw [hstep2, except_bind_ok]
          exact ih ld2 st2 ld1 out h

/-- `_update_context` with the monadic plumbing reduced away. -/
theorem update_context_eq (s : Scene) (r : RendererState) (flags : Nat) :
    Renderer._update_context s r flags =
      (match s.lights.foldlM (Renderer.shadowStep flags s.genShadowTex)
          (s.lightData, []) with
      | .error e => .error e
      | .ok (ld, stx) =>
          .ok ({ s with lightData := ld },
            (⟨s.meshes, (s.meshes.map s.meshPrimTex).flatten.dedup,
              stx⟩ : RendererState),
            (⟨(setDiff s.meshes r.meshes).length,
              (setDiff r.meshes s.meshes).length,
              (setDiff ((s.meshes.map s.meshPrimTex).flatten.dedup)
                r.mesh_textures).length,
              (setDiff r.mesh_textures
                ((s.meshes.map s.meshPrimTex).flatten.dedup)).length,
              (setDiff stx r.shadow_textures).length,
              (setDiff r.shadow_textures stx).length⟩ : SyncStats))) := by
  unfold Renderer._update_context
  cases hE : s.lights.foldlM (Renderer.shadowStep flags s.genShadowTex)
      (s.lightData, []) with
  | error e => rfl
  | ok p =>
      obtain ⟨ld, stx⟩ := p
      rfl

/-- A second `_update_context` on the scene and resident sets a first
successful call produced returns them unchanged with all-zero
statistics. -/
theorem update_context_second (s : Scene) (flags : Nat)
    (ld : Nat → Light) (stx : List Nat)
    (hf : s.lights.foldlM (Renderer.shadowStep flags s.genShadowTex)
        (s.lightData, []) = .ok (ld, stx)) :
    Renderer._update_context { s with lightData := ld }
        (⟨s.meshes, (s.meshes.map s.meshPrimTex).flatten.dedup, stx⟩ :
          RendererState) flags =
      .ok ({ s with lightData := ld },
        (⟨s.meshes, (s.meshes.map s.meshPrimTex).flatten.dedup, stx⟩ :
          RendererState),
        SyncStats.zero) := by
  rw [update_context_eq]
  have hf2 : (Scene.lights { s with lightData := ld }).foldlM
      (Renderer.shadowStep flags
        (Scene.genShadowTex { s with lightData := ld }))
      (Scene.lightData { s with lightData := ld }, []) = .ok (ld, stx) :=
    shadowFold_idem flags s.genShadowTex s.lights s.lightData [] ld stx hf
  rw [hf2]
  show Except.ok (_, _,
      (⟨(setDiff s.meshes s.meshes).length,
        (setDiff s.meshes s.meshes).length,
        (setDiff ((s.meshes.map s.meshPrimTex).flatten.dedup)
          ((s.meshes.map s.meshPrimTex).flatten.dedup)).length,
        (setDiff ((s.meshes.map s.meshPrimTex).flatten.dedup)
          ((s.meshes.map s.meshPrimTex).flatten.dedup)).length,
        (setDiff stx stx).length,
        (setDiff stx stx).length⟩ : SyncStats)) = _
  rw [setDiff_self, setDiff_self, setDiff_self]
  rfl

/-- C7: the per-frame resource sync is idempotent.  Whenever
`_update_context` succeeds, running it again on the scene and resident
sets it returned succeeds with the same scene and resident sets and
all-zero upload/release statistics, for every scene, renderer state and
flag combination. -/
theorem C7_update_context_idempotent (s : Scene) (r : RendererState)
    (flags : Nat) (s1 : Scene) (r1 : RendererState) (st1 : SyncStats)
    (h : Renderer._update_context s r flags = .ok (s1, r1, st1)) :
    Renderer._update_context s1 r1 flags = .ok (s1, r1, SyncStats.zero) := by
  rw [update_context_eq] at h
  cases hf : s.lights.foldlM (Renderer.shadowStep flags s.genShadowTex)
      (s.lightData, []) with
  | error e => rw [hf] at h; cases h
  | ok p =>
      obtain ⟨ld, stx⟩ := p
      rw [hf] at h
      have h2 : (({ s with lightData := ld } : Scene),
          (⟨s.meshes, (s.meshes.map s.meshPrimTex).flatten.dedup, stx⟩ :
            RendererState),
          (⟨(setDiff s.meshes r.meshes).length,
            (setDiff r.meshes s.meshes).length,
            (setDiff ((s.meshes.map s.meshPrimTex).flatten.dedup)
              r.mesh_textures).length,
            (setDiff r.mesh_textures
              ((s.meshes.map s.meshPrimTex).flatten.dedup)).length,
            (setDiff stx r.shadow_textures).length,
            (setDiff r.shadow_textures stx).length⟩ : SyncStats)) =
          (s1, r1, st1) := Except.ok.inj h
      rw [Prod.mk.injEq, Prod.mk.injEq] at h2
      obtain ⟨hs1, hr1, _⟩ := h2
      subst hs1
      subst hr1
      exact update_context_second s flags ld stx hf

/-- Witness for C7: the concrete first run on `dirLightScene` with
directional shadows enabled, whose second run is a no-op. -/
theorem C7_update_context_idempotent_witness :
    Renderer._update_context C7s1 C7r1 RenderFlags.SHADOWS_DIRECTIONAL =
      .ok (C7s1, C7r1, SyncStats.zero) :=
  C7_update_context_idempotent dirLightScene RendererState.init
    RenderFlags.SHADOWS_DIRECTIONAL C7s1 C7r1 ⟨1, 0, 1, 0, 1, 0⟩ rfl

/-! ## Claim C9: point-light shadows fail loudly -/

/-- `_generate_shadow_texture` fails only with the point-light
`NotImplementedError` message. -/
theorem generate_error_msg (li : Light) (size : Option Nat) (tex : Nat)
    (e : String)
    (h : Light._generate_shadow_texture li size tex = .error e) :
    e = "NotImplementedError: Shadows not implemented for point lights" := by
  unfold Light._generate_shadow_texture at h
  cases hty : li.ty with
  | point =>
      rw [hty] at h
      exact (Except.error.inj h).symm
  | directional =>
      rw [hty] at h
      exact Except.noConfusion h
  | spot =>
      rw [hty] at h
      exact Except.noConfusion h

/-- The shadow loop body fails only with the point-light
`NotImplementedError` message. -/
theorem shadowStep_error_msg (flags : Nat) (genTex : Nat → Nat)
    (ld : Nat → Light) (st : List Nat) (l : Nat) (e : String)
    (h : Renderer.shadowStep flags genTex (ld, st) l = .error e) :
    e = "NotImplementedError: Shadows not implemented for point lights" := by
  rw [shadowStep_eq] at h
  by_cases hc : Renderer.lightActive flags (ld l).ty = true ∧
      (ld l).shadow_texture = none
  · rw [if_pos hc] at h
    cases hgen : Light._generate_shadow_texture (ld l) none (genTex l) with
    | error e2 =>
        rw [hgen] at h
        rw [show e = e2 from (Except.error.inj h).symm]
        exact generate_error_msg (ld l) none (genTex l) e2 hgen
    | ok l2 =>
        rw [hgen] at h
        exact Except.noConfusion h
  · rw [if_neg hc] at h
    exact Except.noConfusion h

/-- A light list containing an active texture-less point light makes the
whole shadow loop fail with the `NotImplementedError` message. -/
theorem shadowFold_point_error (flags : Nat) (genTex : Nat → Nat)
    (L : List Nat) :
    ∀ (ld : Nat → Light) (st : List Nat) (ln : Nat), ln ∈ L →
      Renderer.lightActive flags (ld ln).ty = true →
      (ld ln).shadow_texture = none →
      (ld ln).ty = LightType.point →
      L.foldlM (Renderer.shadowStep flags genTex) (ld, st) =
        .error "NotImplementedError: Shadows not implemented for point lights" := by
  induction L with
  | nil =>
      intro ld st ln hmem _ _ _
      cases hmem
  | cons l L ih =>
      intro ld st ln hmem hact hnone hpt
      simp only [List.foldlM]
      cases hstep : Renderer.shadowStep flags genTex (ld, st) l with
      | error e =>
          rw [except_bind_err]
          rw [shadowStep_error_msg flags genTex ld st l e hstep]
      | ok p =>
          obtain ⟨ld2, st2⟩ := p
          rw [except_bind_ok]
          obtain ⟨hother, _, _, _⟩ :=
            shadowStep_spec flags genTex ld st l ld2 st2 hstep
          have hne : ln ≠ l := by
            intro heq
            subst heq
            rw [shadowStep_eq] at hstep
            rw [if_pos ⟨hact, hnone⟩] at hstep
            rw [show Light._generate_shadow_texture (ld ln) none
                (genTex ln) = .error
                "NotImplementedError: Shadows not implemented for point lights"
                from by
              unfold Light._generate_shadow_texture
              rw [hpt]] at hstep
            exact Except.noConfusion hstep
          have hmem2 : ln ∈ L := by
            cases hmem with
            | head => exact absurd rfl hne
            | tail _ hm => exact hm
          have hld2 : ld2 ln = ld ln := hother ln hne
          exact ih ld2 st2 ln hmem2 (by rw [hld2]; exact hact)
            (by rw [hld2]; exact hnone) (by rw [hld2]; exact hpt)

/-- C9: point-light shadows always fail with a not-implemented error and
never silently no-op.  For every light object of point type, generating
its shadow texture and requesting its shadow camera both raise
`NotImplementedError`; and every `render` call whose flags include
`SHADOWS_POINT` on a scene holding an active texture-less point light
fails with that error instead of skipping the shadow pass. -/
theorem C9_point_shadows_fail (l : Light) (hty : l.ty = LightType.point)
    (size : Option Nat) (tex : Nat) (scale : ℚ)
    (s : Scene) (r : RendererState) (flags w h : Nat)
    (rawDepth : Nat → ℚ) (rawColor : Nat → Fin 256) (ln : Nat)
    (hln : ln ∈ s.lights)
    (hpt : (s.lightData ln).ty = LightType.point)
    (hnotex : (s.lightData ln).shadow_texture = none)
    (hflag : flags &&& RenderFlags.SHADOWS_POINT ≠ 0) :
    Light._generate_shadow_texture l size tex =
      .error "NotImplementedError: Shadows not implemented for point lights" ∧
    Light._get_shadow_camera l scale =
      .error "NotImplementedError: Shadows not implemented for point lights" ∧
    errMsg (Renderer.render s r flags w h rawDepth rawColor) =
      some "NotImplementedError: Shadows not implemented for point lights" := by
  refine ⟨?_, ?_, ?_⟩
  · unfold Light._generate_shadow_texture
    rw [hty]
  · unfold Light._get_shadow_camera
    rw [hty]
  · have hact : Renderer.lightActive flags (s.lightData ln).ty = true := by
      rw [hpt]
      simp [Renderer.lightActive, hflag]
    have hfold := shadowFold_point_error flags s.genShadowTex s.lights
      s.lightData [] ln hln hact hnotex hpt
    have hu : Renderer._update_context s r flags = .error
        "NotImplementedError: Shadows not implemented for point lights" := by
      rw [update_context_eq, hfold]
    have hr : Renderer.render s r flags w h rawDepth rawColor = .error
        "NotImplementedError: Shadows not implemented for point lights" := by
      unfold Renderer.render
      rw [hu, except_bind_err]
    rw [hr]
    rfl

/-- Witness for C9: the concrete point light `⟨point, none⟩` and the
concrete render of `pointLightScene` with `SHADOWS_POINT` set. -/
theorem C9_point_shadows_fail_witness :
    Light._generate_shadow_texture ⟨LightType.point, none⟩ none 0 =
      .error "NotImplementedError: Shadows not implemented for point lights" ∧
    Light._get_shadow_camera ⟨LightType.point, none⟩ 1 =
      .error "NotImplementedError: Shadows not implemented for point lights" ∧
    errMsg (Renderer.render pointLightScene RendererState.init
        RenderFlags.SHADOWS_POINT 0 0 (fun _ => 0) (fun _ => 0)) =
      some "NotImplementedError: Shadows not implemented for point lights" :=
  C9_point_shadows_fail ⟨LightType.point, none⟩ rfl none 0 1
    pointLightScene RendererState.init RenderFlags.SHADOWS_POINT 0 0
    (fun _ => 0) (fun _ => 0) 40 (by decide) (by decide) (by decide)
    (by decide)

/-! ## Claim C10: the main-camera invariant -/

theorem cameraInv_of_mem (s : Scene) (m : Nat)
    (hm : s.main_camera_node = some m) (hmem : m ∈ s.camera_nodes) :
    s.cameraInv = true := by
  unfold Scene.cameraInv
  rw [hm]
  exact decide_eq_true hmem

theorem cameraInv_mem (s : Scene) (m : Nat)
    (hm : s.main_camera_node = some m) (h : s.cameraInv = true) :
    m ∈ s.camera_nodes := by
  unfold Scene.cameraInv at h
  rw [hm] at h
  exact of_decide_eq_true h

theorem cameraInv_empty_nodes (s : Scene) (hm : s.main_camera_node = none)
    (h : s.cameraInv = true) : s.camera_nodes = [] := by
  unfold Scene.cameraInv at h
  rw [hm] at h
  exact List.isEmpty_iff.mp h

theorem cameraInv_of_none (s : Scene) (hm : s.main_camera_node = none)
    (he : s.camera_nodes = []) : s.cameraInv = true := by
  unfold Scene.cameraInv
  rw [hm, he]
  rfl

theorem cameraInv_head (t : Scene) (L : List Nat)
    (hm : t.main_camera_node = L.head?) (hc : t.camera_nodes = L) :
    t.cameraInv = true := by
  unfold Scene.cameraInv
  rw [hm, hc]
  cases L with
  | nil => rfl
  | cons a L => exact decide_eq_true (List.mem_cons_self a L)

theorem cameraInv_none_iff (s : Scene) (h : s.cameraInv = true) :
    s.main_camera_node = none ↔ s.camera_nodes = [] := by
  constructor
  · intro hm
    exact cameraInv_empty_nodes s hm h
  · intro he
    cases hm : s.main_camera_node with
    | none => rfl
    | some m =>
        have hmem := cameraInv_mem s m hm h
        rw [he] at hmem
        cases hmem

/-- The mesh step of `add_node` touches no camera data. -/
theorem Scene.addMeshStep_fields (s : Scene) (n : Nat) :
    (Scene.addMeshStep s n).main_camera_node = s.main_camera_node ∧
    (Scene.addMeshStep s n).camera_nodes = s.camera_nodes ∧
    (Scene.addMeshStep s n).cameraOf = s.cameraOf := by
  unfold Scene.addMeshStep
  cases hm : s.meshOf n <;> exact ⟨rfl, rfl, rfl⟩

/-- The light step of `add_node` touches no camera data. -/
theorem Scene.addLightBranch_fields (s : Scene) (n l : Nat) :
    (Scene.addLightBranch s n l).main_camera_node = s.main_camera_node ∧
    (Scene.addLightBranch s n l).camera_nodes = s.camera_nodes ∧
    (Scene.addLightBranch s n l).cameraOf = s.cameraOf := by
  unfold Scene.addLightBranch
  cases hty : (s.lightData l).ty <;> exact ⟨rfl, rfl, rfl⟩

theorem Scene.addLightStep_fields (s : Scene) (n : Nat) :
    (Scene.addLightStep s n).main_camera_node = s.main_camera_node ∧
    (Scene.addLightStep s n).camera_nodes = s.camera_nodes ∧
    (Scene.addLightStep s n).cameraOf = s.cameraOf := by
  unfold Scene.addLightStep
  cases hl : s.lightOf n with
  | none => exact ⟨rfl, rfl, rfl⟩
  | some l => exact Scene.addLightBranch_fields s n l

/-- The invariant only reads the main camera and the camera-node
list. -/
theorem cameraInv_congr (t u : Scene)
    (h1 : t.main_camera_node = u.main_camera_node)
    (h2 : t.camera_nodes = u.camera_nodes) :
    t.cameraInv = u.cameraInv := by
  unfold Scene.cameraInv
  rw [h1, h2]

/-- The mesh step of `add_node` preserves the invariant. -/
theorem Scene.addMeshStep_inv (s : Scene) (n : Nat) (h : s.cameraInv = true) :
    (Scene.addMeshStep s n).cameraInv = true := by
  rw [cameraInv_congr (Scene.addMeshStep s n) s (Scene.addMeshStep_fields s n).1
    (Scene.addMeshStep_fields s n).2.1]
  exact h

/-- The light step of `add_node` preserves the invariant. -/
theorem Scene.addLightStep_inv (s : Scene) (n : Nat) (h : s.cameraInv = true) :
    (Scene.addLightStep s n).cameraInv = true := by
  rw [cameraInv_congr (Scene.addLightStep s n) s (Scene.addLightStep_fields s n).1
    (Scene.addLightStep_fields s n).2.1]
  exact h

/-- The camera step of `add_node` preserves the main-camera invariant. -/
theorem Scene.addCamStep_inv (s : Scene) (n : Nat) (h : s.cameraInv = true) :
    (Scene.addCamStep s n).cameraInv = true := by
  unfold Scene.addCamStep
  cases hc : s.cameraOf n with
  | none => exact h
  | some c =>
      cases hm : s.main_camera_node with
      | none => exact cameraInv_of_mem _ n rfl (List.mem_cons_self n _)
      | some m =>
          exact cameraInv_of_mem _ m rfl
            (List.mem_cons_of_mem n (cameraInv_mem s m hm h))

/-- The camera step of `add_node` never unseats an existing main
camera. -/
theorem Scene.addCamStep_main (s : Scene) (n m : Nat)
    (hm : s.main_camera_node = some m) :
    (Scene.addCamStep s n).main_camera_node = some m := by
  unfold Scene.addCamStep
  cases hc : s.cameraOf n with
  | none => exact hm
  | some c =>
      show (if s.main_camera_node = none then some n
            else s.main_camera_node) = some m
      rw [hm]
      rfl

/-- The camera step of `add_node` seats a camera node added to a
camera-less scene as the main camera. -/
theorem Scene.addCamStep_first (s : Scene) (n : Nat)
    (hm : s.main_camera_node = none) (hc : (s.cameraOf n).isSome = true) :
    (Scene.addCamStep s n).main_camera_node = some n := by
  unfold Scene.addCamStep
  cases hco : s.cameraOf n with
  | none => rw [hco] at hc; cases hc
  | some c =>
      show (if s.main_camera_node = none then some n
            else s.main_camera_node) = some n
      rw [hm]
      rfl

/-- The parent step of `add_node` touches no camera data. -/
theorem Scene.addParentStep_fields (s : Scene) (n : Nat) (p : Option Nat)
    (t : Scene) (h : Scene.addParentStep s n p = .ok t) :
    t.main_camera_node = s.main_camera_node ∧
    t.camera_nodes = s.camera_nodes := by
  cases p with
  | none =>
      have ht : { s with parent := fupd s.parent n none } = t :=
        Except.ok.inj h
      rw [← ht]
      exact ⟨rfl, rfl⟩
  | some pp =>
      have h2 : (if pp ∈ s.nodes then
          (let u := ite (n ∈ s.childrenOf pp) s { s with childrenOf := fupd s.childrenOf pp (s.childrenOf pp ++ [n]) }
           Except.ok (ε := String) { u with parent := fupd u.parent n (some pp) })
        else .error "ValueError: Parent node must already be in scene") =
          .ok t := h
      by_cases hpp : pp ∈ s.nodes
      · rw [if_pos hpp] at h2
        by_cases hch : n ∈ s.childrenOf pp
        · rw [if_pos hch] at h2
          have ht := Except.ok.inj h2
          rw [← ht]
          exact ⟨rfl, rfl⟩
        · rw [if_neg hch] at h2
          have ht := Except.ok.inj h2
          rw [← ht]
          exact ⟨rfl, rfl⟩
      · rw [if_neg hpp] at h2
        exact Except.noConfusion h2

/-- A successful `add_node` preserves the main-camera invariant and
never unseats an existing main camera. -/
theorem add_node_inv (fuel : Nat) :
    ∀ (s : Scene) (n : Nat) (p : Option Nat) (s' : Scene),
      Scene.add_node fuel s n p = .ok s' →
      (s.cameraInv = true → s'.cameraInv = true) ∧
      (∀ m, s.main_camera_node = some m →
        s'.main_camera_node = some m) := by
  induction fuel with
  | zero =>
      intro s n p s' h
      exact Except.noConfusion h
  | succ fuel ih =>
      have ihfold : ∀ (L : List Nat) (pn : Nat) (s0 s1 : Scene),
          L.foldlM (fun acc c => Scene.add_node fuel acc c (some pn)) s0 =
            .ok s1 →
          (s0.cameraInv = true → s1.cameraInv = true) ∧
          (∀ m, s0.main_camera_node = some m →
            s1.main_camera_node = some m) := by
        intro L
        induction L with
        | nil =>
            intro pn s0 s1 h
            have h2 : s0 = s1 := Except.ok.inj h
            subst h2
            exact ⟨id, fun _ => id⟩
        | cons c L ihL =>
            intro pn s0 s1 h
            simp only [List.foldlM] at h
            cases hstep : Scene.add_node fuel s0 c (some pn) with
            | error e =>
                rw [hstep, except_bind_err] at h
                exact Except.noConfusion h
            | ok s2 =>
                rw [hstep, except_bind_ok] at h
                obtain ⟨hi1, hi2⟩ := ih s0 c (some pn) s2 hstep
                obtain ⟨hj1, hj2⟩ := ihL pn s2 s1 h
                exact ⟨fun hv => hj1 (hi1 hv),
                  fun m hm => hj2 m (hi2 m hm)⟩
      intro s n p s' h
      by_cases hns : n ∈ s.nodes
      · unfold Scene.add_node at h
        rw [if_pos hns] at h
        exact Except.noConfusion h
      · unfold Scene.add_node at h
        rw [if_neg hns] at h
        have h2 : (Scene.addParentStep (Scene.addCamStep (Scene.addLightStep
            (Scene.addMeshStep { s with nodes := n :: s.nodes } n) n) n) n p >>=
            fun s4 => ((s4.childrenOf n).foldlM
              (fun acc c => Scene.add_node fuel acc c (some n)) s4 >>=
            fun s5 => pure { s5 with boundsCache := none })) = .ok s' := h
        generalize hg : Scene.addCamStep (Scene.addLightStep
            (Scene.addMeshStep { s with nodes := n :: s.nodes } n) n) n = s3 at h2
        cases hp : Scene.addParentStep s3 n p with
        | error e =>
            rw [hp, except_bind_err] at h2
            exact Except.noConfusion h2
        | ok s4 =>
            rw [hp, except_bind_ok] at h2
            cases hf : (s4.childrenOf n).foldlM
                (fun acc c => Scene.add_node fuel acc c (some n)) s4 with
            | error e =>
                rw [hf, except_bind_err] at h2
                exact Except.noConfusion h2
            | ok s5 =>
                rw [hf, except_bind_ok] at h2
                have hs' : { s5 with boundsCache := none } = s' :=
                  Except.ok.inj h2
                obtain ⟨hpm, hpc⟩ := Scene.addParentStep_fields s3 n p s4 hp
                obtain ⟨hfi, hfm⟩ := ihfold (s4.childrenOf n) n s4 s5 hf
                constructor
                · intro hv
                  have hv1 : Scene.cameraInv
                      { s with nodes := n :: s.nodes } = true := hv
                  have hv2 := Scene.addMeshStep_inv _ n hv1
                  have hv3 := Scene.addLightStep_inv _ n hv2
                  have hv4 : s3.cameraInv = true := by
                    rw [← hg]
                    exact Scene.addCamStep_inv _ n hv3
                  have hv5 : s4.cameraInv = true := by
                    rw [cameraInv_congr s4 s3 hpm hpc]
                    exact hv4
                  rw [← hs']
                  exact hfi hv5
                · intro m hm
                  have hm1 : Scene.main_camera_node
                      (Scene.addMeshStep { s with nodes := n :: s.nodes } n) =
                      some m := by
                    rw [(Scene.addMeshStep_fields _ n).1]
                    exact hm
                  have hm2 : Scene.main_camera_node (Scene.addLightStep
                      (Scene.addMeshStep { s with nodes := n :: s.nodes } n) n) =
                      some m := by
                    rw [(Scene.addLightStep_fields _ n).1]
                    exact hm1
                  have hm3 : s3.main_camera_node = some m := by
                    rw [← hg]
                    exact Scene.addCamStep_main _ n m hm2
                  have hm4 : s4.main_camera_node = some m := by
                    rw [hpm]
                    exact hm3
                  rw [← hs']
                  exact hfm m hm4

/-- The children fold of `add_node` never unseats an existing main
camera. -/
theorem addFold_main (fuel : Nat) (L : List Nat) (pn : Nat) :
    ∀ (s0 s1 : Scene),
      L.foldlM (fun acc c => Scene.add_node fuel acc c (some pn)) s0 =
        .ok s1 →
      ∀ m, s0.main_camera_node = some m →
        s1.main_camera_node = some m := by
  induction L with
  | nil =>
      intro s0 s1 h m hm
      rw [← Except.ok.inj h]
      exact hm
  | cons c L ihL =>
      intro s0 s1 h m hm
      simp only [List.foldlM] at h
      cases hstep : Scene.add_node fuel s0 c (some pn) with
      | error e =>
          rw [hstep, except_bind_err] at h
          exact Except.noConfusion h
      | ok s2 =>
          rw [hstep, except_bind_ok] at h
          exact ihL s2 s1 h m
            ((add_node_inv fuel s0 c (some pn) s2 hstep).2 m hm)

/-- Adding a camera-bearing node to a scene with no main camera
designates that node as the main camera. -/
theorem add_node_first_camera (fuel : Nat) (s : Scene) (n : Nat)
    (p : Option Nat) (s' : Scene)
    (h : Scene.add_node fuel s n p = .ok s')
    (hm : s.main_camera_node = none)
    (hc : (s.cameraOf n).isSome = true) :
    s'.main_camera_node = some n := by
  cases fuel with
  | zero => exact Except.noConfusion h
  | succ fuel =>
      by_cases hns : n ∈ s.nodes
      · unfold Scene.add_node at h
        rw [if_pos hns] at h
        exact Except.noConfusion h
      · unfold Scene.add_node at h
        rw [if_neg hns] at h
        have h2 : (Scene.addParentStep (Scene.addCamStep (Scene.addLightStep
            (Scene.addMeshStep { s with nodes := n :: s.nodes } n) n) n) n p >>=
            fun s4 => ((s4.childrenOf n).foldlM
              (fun acc c => Scene.add_node fuel acc c (some n)) s4 >>=
            fun s5 => pure { s5 with boundsCache := none })) = .ok s' := h
        generalize hg : Scene.addCamStep (Scene.addLightStep
            (Scene.addMeshStep { s with nodes := n :: s.nodes } n) n) n = s3 at h2
        have hs3 : s3.main_camera_node = some n := by
          rw [← hg]
          apply Scene.addCamStep_first
          · rw [(Scene.addLightStep_fields _ n).1, (Scene.addMeshStep_fields _ n).1]
            exact hm
          · rw [(Scene.addLightStep_fields _ n).2.2, (Scene.addMeshStep_fields _ n).2.2]
            exact hc
        cases hp : Scene.addParentStep s3 n p with
        | error e =>
            rw [hp, except_bind_err] at h2
            exact Except.noConfusion h2
        | ok s4 =>
            rw [hp, except_bind_ok] at h2
            cases hf : (s4.childrenOf n).foldlM
                (fun acc c => Scene.add_node fuel acc c (some n)) s4 with
            | error e =>
                rw [hf, except_bind_err] at h2
                exact Except.noConfusion h2
            | ok s5 =>
                rw [hf, except_bind_ok] at h2
                have hs4 : s4.main_camera_node = some n := by
                  rw [(Scene.addParentStep_fields s3 n p s4 hp).1]
                  exact hs3
                rw [← Except.ok.inj h2]
                exact addFold_main fuel (s4.childrenOf n) n s4 s5 hf n hs4

/-- The mesh step of `_remove_node` preserves the invariant. -/
theorem Scene.removeMeshStep_inv (s : Scene) (n : Nat) (h : s.cameraInv = true) :
    (Scene.removeMeshStep s n).cameraInv = true := by
  unfold Scene.removeMeshStep
  cases hm : s.meshOf n <;> exact h

/-- The light step of `_remove_node` preserves the invariant. -/
theorem Scene.removeLightBranch_inv (s : Scene) (n l : Nat)
    (h : s.cameraInv = true) :
    (Scene.removeLightBranch s n l).cameraInv = true := by
  unfold Scene.removeLightBranch
  cases hty : (s.lightData l).ty <;> exact h

theorem Scene.removeLightStep_inv (s : Scene) (n : Nat) (h : s.cameraInv = true) :
    (Scene.removeLightStep s n).cameraInv = true := by
  unfold Scene.removeLightStep
  cases hl : s.lightOf n with
  | none => exact h
  | some l => exact Scene.removeLightBranch_inv s n l h

/-- The camera step of `_remove_node` preserves the invariant:
promotion hands the main-camera slot to the head of the remaining
camera list, or clears it when the list is empty. -/
theorem Scene.removeCamStep_inv (s : Scene) (n : Nat) (h : s.cameraInv = true) :
    (Scene.removeCamStep s n).cameraInv = true := by
  unfold Scene.removeCamStep
  cases hc : s.cameraOf n with
  | none => exact h
  | some c =>
      cases hm : s.main_camera_node with
      | none =>
          refine cameraInv_of_none _ rfl ?_
          show s.camera_nodes.erase n = []
          rw [cameraInv_empty_nodes s hm h]
          rfl
      | some m =>
          by_cases hmn : (some m : Option Nat) = some n
          · rw [if_pos hmn]
            exact cameraInv_head _ (s.camera_nodes.erase n) rfl rfl
          · rw [if_neg hmn]
            refine cameraInv_of_mem _ m rfl ?_
            show m ∈ s.camera_nodes.erase n
            have hne : m ≠ n := fun he => hmn (by rw [he])
            exact (List.mem_erase_of_ne hne).mpr (cameraInv_mem s m hm h)

/-- `_remove_node` preserves the invariant at every fuel. -/
theorem remove_node_aux_inv (fuel : Nat) :
    ∀ (s : Scene) (n : Nat), s.cameraInv = true →
      (Scene._remove_node fuel s n).cameraInv = true := by
  induction fuel with
  | zero => intro s n h; exact h
  | succ fuel ih =>
      have ihfold : ∀ (L : List Nat) (s0 : Scene), s0.cameraInv = true →
          (L.foldl (fun acc c => Scene._remove_node fuel acc c)
            s0).cameraInv = true := by
        intro L
        induction L with
        | nil => intro s0 h; exact h
        | cons c L ihL =>
            intro s0 h
            rw [List.foldl_cons]
            exact ihL _ (ih s0 c h)
      intro s n h
      show (Scene.removeCamStep (Scene.removeLightStep (Scene.removeMeshStep
        (((s.childrenOf n).foldl (fun acc c => Scene._remove_node fuel acc c)
          { s with nodes := s.nodes.erase n })) n) n) n).cameraInv = true
      exact Scene.removeCamStep_inv _ n (Scene.removeLightStep_inv _ n
        (Scene.removeMeshStep_inv _ n (ihfold (s.childrenOf n) _ h)))

/-- A successful `remove_node` preserves the invariant. -/
theorem remove_node_inv (s : Scene) (n : Nat) (t : Scene)
    (h : Scene.remove_node s n = .ok t) (hv : s.cameraInv = true) :
    t.cameraInv = true := by
  unfold Scene.remove_node at h
  by_cases hns : n ∈ s.nodes
  · rw [if_pos hns] at h
    cases hp : s.parent n with
    | none =>
        rw [hp] at h
        have ht := Except.ok.inj h
        rw [← ht]
        exact remove_node_aux_inv s.nodes.length s n hv
    | some pp =>
        rw [hp] at h
        have ht := Except.ok.inj h
        rw [← ht]
        exact remove_node_aux_inv s.nodes.length s n hv
  · rw [if_neg hns] at h
    exact Except.noConfusion h

/-- C10: across scene construction, `add_node`, `remove_node` and
`clear`, the main camera node is `none` exactly when the scene holds no
camera nodes (and otherwise is itself a camera node); in particular,
adding the first camera-bearing node to a scene whose main camera is
`none` automatically designates that node as the main camera. -/
theorem C10_main_camera_invariant (s : Scene) (h : s.cameraInv = true)
    (fuel n nrem : Nat) (p : Option Nat) (sAdd sRem : Scene)
    (hadd : Scene.add_node fuel s n p = .ok sAdd)
    (hrem : Scene.remove_node s nrem = .ok sRem) :
    Scene.cameraInv emptyScene = true ∧
    sAdd.cameraInv = true ∧
    sRem.cameraInv = true ∧
    (Scene.clear s).cameraInv = true ∧
    (sAdd.main_camera_node = none ↔ sAdd.camera_nodes = []) ∧
    (sRem.main_camera_node = none ↔ sRem.camera_nodes = []) ∧
    (s.main_camera_node = none → (s.cameraOf n).isSome = true →
      sAdd.main_camera_node = some n) := by
  have hsAdd := (add_node_inv fuel s n p sAdd hadd).1 h
  have hsRem := remove_node_inv s nrem sRem hrem h
  exact ⟨rfl, hsAdd, hsRem, rfl, cameraInv_none_iff sAdd hsAdd,
    cameraInv_none_iff sRem hsRem,
    fun hm hc => add_node_first_camera fuel s n p sAdd hadd hm hc⟩

/-! ## Claims C1 and C4: rendering -/

theorem mapConstReplicate {α β : Type} (l : List α) (b : β) :
    l.map (fun _ => b) = List.replicate l.length b := by
  induction l with
  | nil => rfl
  | cons a l ih => simp [ih, List.replicate_succ]

/-- Every row of a reshaped `(h, w)` buffer has length `w`. -/
theorem reshape2_rows {α : Type} (raw : Nat → α) (h w : Nat) :
    (reshape2 raw h w).map List.length = List.replicate h w := by
  unfold reshape2
  rw [List.map_map]
  have he : (List.length ∘ fun i => (List.range w).map
      fun j => raw (i * w + j)) = fun _ => w := by
    funext i
    simp
  rw [he, mapConstReplicate, List.length_range]

/-- Every row of a reshaped `(h, w, c)` buffer has length `w`. -/
theorem reshape3_rows {α : Type} (raw : Nat → α) (h w c : Nat) :
    (reshape3 raw h w c).map List.length = List.replicate h w := by
  unfold reshape3
  rw [List.map_map]
  have he : (List.length ∘ fun i => (List.range w).map
      fun j => (List.range c).map fun k => raw ((i * w + j) * c + k)) =
      fun _ => w := by
    funext i
    simp
  rw [he, mapConstReplicate, List.length_range]

/-- Every cell of a reshaped `(h, w, c)` buffer has length `c`. -/
theorem reshape3_cells {α : Type} (raw : Nat → α) (h w c : Nat) :
    (reshape3 raw h w c).map (fun row => row.map List.length) =
      List.replicate h (List.replicate w c) := by
  unfold reshape3
  rw [List.map_map]
  have he : ((fun row => row.map List.length) ∘ fun i =>
      (List.range w).map fun j => (List.range c).map
        fun k => raw ((i * w + j) * c + k)) =
      fun _ => List.replicate w c := by
    funext i
    show ((List.range w).map fun j => (List.range c).map
      fun k => raw ((i * w + j) * c + k)).map List.length =
      List.replicate w c
    rw [List.map_map]
    have hc : (List.length ∘ fun j => (List.range c).map
        fun k => raw ((i * w + j) * c + k)) = fun _ => c := by
      funext j
      simp
    rw [hc, mapConstReplicate, List.length_range]
  rw [he, mapConstReplicate, List.length_range]

/-- The depth linearization preserves the row length. -/
theorem linearizeDepthRow_length (z_near : ℚ) (z_far : Option ℚ)
    (row : List ℚ) :
    (linearizeDepthRow z_near z_far row).length = row.length := by
  unfold linearizeDepthRow
  simp

/-- The flipped, linearized depth buffer is `h` rows of `w` entries. -/
theorem depth_im_shape (zn : ℚ) (zf : Option ℚ) (raw : Nat → ℚ)
    (h w : Nat) :
    (((reshape2 raw h w).reverse).map (linearizeDepthRow zn zf)).map
      List.length = List.replicate h w := by
  rw [List.map_map]
  have he : (List.length ∘ linearizeDepthRow zn zf) = List.length := by
    funext row
    exact linearizeDepthRow_length zn zf row
  rw [he, List.map_reverse, reshape2_rows, List.reverse_replicate]

/-- C1: the render call of the one-box/one-light/one-camera scenario.
Every offscreen `render` on `boxScene` — default flags or depth-only —
stops with the `AttributeError` for the missing `RenderFlags.SEG`
attribute instead of returning buffers; the readback it never reaches,
`_read_main_framebuffer`, would have produced the `(480, 640, 3)` color
and `(480, 640)` depth shapes (and the depth buffer alone under
`DEPTH_ONLY`). -/
theorem C1_render_shapes (r : RendererState) (rawDepth : Nat → ℚ)
    (rawColor : Nat → Fin 256) :
    errMsg (Renderer.render boxScene r RenderFlags.OFFSCREEN 640 480
        rawDepth rawColor) =
      some "AttributeError: type object RenderFlags has no attribute SEG" ∧
    errMsg (Renderer.render boxScene r
        (RenderFlags.OFFSCREEN ||| RenderFlags.DEPTH_ONLY) 640 480
        rawDepth rawColor) =
      some "AttributeError: type object RenderFlags has no attribute SEG" ∧
    (∀ (z_near : ℚ) (z_far : Option ℚ), ∃ color depth,
      Renderer._read_main_framebuffer z_near z_far RenderFlags.OFFSCREEN
          640 480 rawDepth rawColor = .colorDepth color depth ∧
      color.map List.length = List.replicate 480 640 ∧
      color.map (fun row => row.map List.length) =
        List.replicate 480 (List.replicate 640 3) ∧
      depth.map List.length = List.replicate 480 640) ∧
    (∀ (z_near : ℚ) (z_far : Option ℚ), ∃ depth,
      Renderer._read_main_framebuffer z_near z_far
          (RenderFlags.OFFSCREEN ||| RenderFlags.DEPTH_ONLY) 640 480
          rawDepth rawColor = .depthOnly depth ∧
      depth.map List.length = List.replicate 480 640) := by
  refine ⟨rfl, rfl, ?_, ?_⟩
  · intro z_near z_far
    refine ⟨(reshape3 rawColor 480 640 3).reverse,
      ((reshape2 rawDepth 480 640).reverse).map
        (linearizeDepthRow z_near z_far), rfl, ?_, ?_, ?_⟩
    · rw [List.map_reverse, reshape3_rows, List.reverse_replicate]
    · rw [List.map_reverse, reshape3_cells, List.reverse_replicate]
    · exact depth_im_shape z_near z_far rawDepth 480 640
  · intro z_near z_far
    refine ⟨((reshape2 rawDepth 480 640).reverse).map
      (linearizeDepthRow z_near z_far), rfl, ?_⟩
    exact depth_im_shape z_near z_far rawDepth 480 640

/-- C4: removing the main-camera node under the invariant leaves either
no camera (with an empty camera-node set) or a promoted main camera that
is one of the remaining camera nodes; concretely, removing the main
camera of `twoCameraScene` promotes the other camera, `noCameraScene`
is left with no main camera, and `_get_camera_matrices` then fails with
the no-camera `ValueError` — but a full `render` on the camera-less
scene stops earlier, at the missing `RenderFlags.SEG` attribute. -/
theorem C4_camera_promotion (s : Scene) (n : Nat) (t : Scene)
    (h : Scene.remove_node s n = .ok t) (hv : s.cameraInv = true) :
    (t.main_camera_node = none → t.camera_nodes = []) ∧
    (∀ m, t.main_camera_node = some m → m ∈ t.camera_nodes) ∧
    (unwrapScene (Scene.remove_node twoCameraScene 1)).main_camera_node =
      some 2 ∧
    (unwrapScene (Scene.remove_node twoCameraScene 1)).camera_nodes =
      [2] ∧
    noCameraScene.main_camera_node = none ∧
    noCameraScene.camera_nodes = [] ∧
    Renderer._get_camera_matrices noCameraScene =
      .error "ValueError: Cannot render scene without a camera" ∧
    errMsg (Renderer.render noCameraScene RendererState.init 0 0 0
        (fun _ => 0) (fun _ => 0)) =
      some "AttributeError: type object RenderFlags has no attribute SEG" := by
  have ht := remove_node_inv s n t h hv
  exact ⟨fun hm => cameraInv_empty_nodes t hm ht,
    fun m hm => cameraInv_mem t m hm ht, rfl, rfl, rfl, rfl, rfl, rfl⟩

/-- Witness for C4: the removal of main camera node `1` from
`twoCameraScene`. -/
theorem C4_camera_promotion_witness :
    ((unwrapScene (Scene.remove_node twoCameraScene 1)).main_camera_node =
        none →
      (unwrapScene (Scene.remove_node twoCameraScene 1)).camera_nodes =
        []) ∧
    (∀ m, (unwrapScene
        (Scene.remove_node twoCameraScene 1)).main_camera_node = some m →
      m ∈ (unwrapScene (Scene.remove_node twoCameraScene 1)).camera_nodes) ∧
    (unwrapScene (Scene.remove_node twoCameraScene 1)).main_camera_node =
      some 2 ∧
    (unwrapScene (Scene.remove_node twoCameraScene 1)).camera_nodes =
      [2] ∧
    noCameraScene.main_camera_node = none ∧
    noCameraScene.camera_nodes = [] ∧
    Renderer._get_camera_matrices noCameraScene =
      .error "ValueError: Cannot render scene without a camera" ∧
    errMsg (Renderer.render noCameraScene RendererState.init 0 0 0
        (fun _ => 0) (fun _ => 0)) =
      some "AttributeError: type object RenderFlags has no attribute SEG" :=
  C4_camera_promotion twoCameraScene 1
    (unwrapScene (Scene.remove_node twoCameraScene 1)) rfl rfl

/-- Witness for C10: inserting camera node `5` into `c10Scene` (which
has no main camera) and removing node `1`. -/
theorem C10_main_camera_invariant_witness :
    Scene.cameraInv emptyScene = true ∧
    c10sAdd.cameraInv = true ∧
    c10sRem.cameraInv = true ∧
    (Scene.clear c10Scene).cameraInv = true ∧
    (c10sAdd.main_camera_node = none ↔ c10sAdd.camera_nodes = []) ∧
    (c10sRem.main_camera_node = none ↔ c10sRem.camera_nodes = []) ∧
    (c10Scene.main_camera_node = none →
      (c10Scene.cameraOf 5).isSome = true →
      c10sAdd.main_camera_node = some 5) :=
  C10_main_camera_invariant c10Scene rfl 4 5 1 none c10sAdd c10sRem rfl rfl

end Pyrender
